import Mathlib

/-!
# Rollbar crash recorder: application-state monitor and ARM register accessor

A shallow embedding of

* `RollbarCrashMonitor_AppState.c`: the record `g_state`, the flag `g_isEnabled`, the
  JSON load callbacks, `saveState`, `updateAppState` and the `rcstate_*` operations;
* `RollbarCrashCPU_arm.c`: the register name tables and the indexed register readers.

Conventions of the embedding.

* `double` values (durations, time stamps) are elements of a type `D`.  Definitions only
  ask for the operations the code uses (`0`, `+`, `-`, conversion from an integer);
  theorems that need laws of exact arithmetic say so through their instance arguments.
* The clock is an explicit input: every operation receives the value `now` that the first
  call of `getCurrentTime()` during that operation returns, and the value `later` that a
  second call during the same operation returns.  Only `updateAppState` reads the clock
  twice.  Trace logging is compiled out (the local log level is commented out in the
  source), so the arguments of the trace calls are not evaluated.
* A C `int` is an integer in `[-2^31, 2^31)`.  Conversions to `int` keep the low 32 bits.
  Signed overflow of `++` is undefined in C; the model wraps, as the targets do, and the
  theorems that read the result as a sum assume that no overflow occurs.
* The file at `g_stateFilePath` is a field of the recorder; whether `open` and the byte sink
  succeed is an input of each operation.
* An array read outside its bounds is a `Fault`.
-/

namespace Rollbar

/-! ## C integers -/

/-- A value of the C type `int` (32 bits, two's complement). -/
abbrev CInt : Type := { x : Int // -2147483648 ≤ x ∧ x ≤ 2147483647 }

/-- Conversion to `int` of an `int64_t`, or of the mathematical result of an `int`
operation: the low 32 bits are kept. -/
def CInt.ofInt (n : Int) : CInt :=
  ⟨(n + 2147483648) % 4294967296 - 2147483648, by omega⟩

/-- The C statement `x++` on an `int`. -/
def CInt.incr (x : CInt) : CInt := CInt.ofInt (x.val + 1)

/-! ## Constants -/

def kFormatVersion : Int := 1

def kKeyFormatVersion : String := "version"
def kKeyCrashedLastLaunch : String := "crashedLastLaunch"
def kKeyActiveDurationSinceLastCrash : String := "activeDurationSinceLastCrash"
def kKeyBackgroundDurationSinceLastCrash : String := "backgroundDurationSinceLastCrash"
def kKeyLaunchesSinceLastCrash : String := "launchesSinceLastCrash"
def kKeySessionsSinceLastCrash : String := "sessionsSinceLastCrash"
def kKeySessionsSinceLaunch : String := "sessionsSinceLaunch"

/-- The six key names of the persisted file. -/
def persistedKeys : List String :=
  [kKeyFormatVersion, kKeyCrashedLastLaunch, kKeyActiveDurationSinceLastCrash,
   kKeyBackgroundDurationSinceLastCrash, kKeyLaunchesSinceLastCrash,
   kKeySessionsSinceLastCrash]

/-! ## Data model -/

/-- Modelled from the spec: the record type `RollbarCrash_AppState`, declared in the header
`RollbarCrashMonitor_AppState.h` (not among the sources).  The twelve fields are the ones
the code reads and writes; durations and the time stamp are `double`, counters are `int`,
flags are `bool`. -/
structure RollbarCrash_AppState (D : Type) where
  activeDurationSinceLastCrash : D
  backgroundDurationSinceLastCrash : D
  launchesSinceLastCrash : CInt
  sessionsSinceLastCrash : CInt
  activeDurationSinceLaunch : D
  backgroundDurationSinceLaunch : D
  sessionsSinceLaunch : CInt
  crashedLastLaunch : Bool
  crashedThisLaunch : Bool
  appStateTransitionTime : D
  applicationIsActive : Bool
  applicationIsInForeground : Bool
deriving DecidableEq, Repr

/-- The record after `memset(&g_state, 0, sizeof(g_state))`. -/
def zeroedState {D : Type} [Zero D] : RollbarCrash_AppState D :=
  { activeDurationSinceLastCrash := 0
    backgroundDurationSinceLastCrash := 0
    launchesSinceLastCrash := CInt.ofInt 0
    sessionsSinceLastCrash := CInt.ofInt 0
    activeDurationSinceLaunch := 0
    backgroundDurationSinceLaunch := 0
    sessionsSinceLaunch := CInt.ofInt 0
    crashedLastLaunch := false
    crashedThisLaunch := false
    appStateTransitionTime := 0
    applicationIsActive := false
    applicationIsInForeground := false }

/-- Modelled from the spec: the status codes of the JSON codec (`RollbarCrashJSONCodec.h`,
not among the sources).  The code names `OK`, `ERROR_INVALID_DATA` and
`ERROR_CANNOT_ADD_DATA`; `ERROR_INCOMPLETE` stands for the decoder stopping on malformed
input. -/
inductive JSONResult where
  | OK
  | ERROR_CANNOT_ADD_DATA
  | ERROR_INCOMPLETE
  | ERROR_INVALID_DATA
deriving DecidableEq, Repr

/-- One element event of the streaming codec: what the encoder is asked to emit and what
the decoder hands to the matching callback.  Value elements carry their key. -/
inductive Element (D : Type) where
  | beginObject (name : Option String)
  | beginArray (name : Option String)
  | booleanElement (name : String) (value : Bool)
  | floatingPointElement (name : String) (value : D)
  | integerElement (name : String) (value : Int)
  | nullElement (name : String)
  | stringElement (name : String) (value : String)
  | endContainer
deriving DecidableEq, Repr

/-- The key an element is delivered with, if it has one. -/
def Element.key {D : Type} : Element D → Option String
  | .beginObject name => name
  | .beginArray name => name
  | .booleanElement name _ => some name
  | .floatingPointElement name _ => some name
  | .integerElement name _ => some name
  | .nullElement name => some name
  | .stringElement name _ => some name
  | .endContainer => none

/-- Modelled from the spec: the content of a file as the streaming decoder sees it: the
elements it recognises, in order, and whether the buffer is a complete document after
them (`false`: the decoder stops on malformed or truncated input). -/
structure Document (D : Type) where
  elements : List (Element D)
  complete : Bool
deriving DecidableEq, Repr

/-- The inputs an operation takes from its surroundings: what the first and the second
call of `getCurrentTime()` during the operation return, whether
`open(path, O_RDWR | O_CREAT | O_TRUNC)` succeeds, how many encoder calls the byte sink
accepts before it fails, and whether `rcfu_readEntireFile` succeeds. -/
structure Env (D : Type) where
  now : D
  later : D
  openOK : Bool
  sinkCapacity : Nat
  readOK : Bool
deriving DecidableEq, Repr

/-- The file-scope globals `g_state` and `g_isEnabled`, the file at `g_stateFilePath`
(`none`: no such file), and a count of the calls to `saveState`. -/
structure Recorder (D : Type) where
  g_state : RollbarCrash_AppState D
  g_isEnabled : Bool
  file : Option (Document D)
  saveCalls : Nat
deriving DecidableEq, Repr

/-- Modelled from the spec: the part of `RollbarCrash_MonitorContext` (declared in
`RollbarCrashMonitorContext.h`, not among the sources) that this monitor writes. -/
structure RollbarCrash_MonitorContext (D : Type) where
  AppState : RollbarCrash_AppState D
deriving DecidableEq, Repr

/-! ## JSON decoding callbacks -/

section Callbacks

variable {D : Type}

def onBooleanElement (name : String) (value : Bool) (state : RollbarCrash_AppState D) :
    JSONResult × RollbarCrash_AppState D :=
  let state :=
    if name = kKeyCrashedLastLaunch then { state with crashedLastLaunch := value } else state
  (JSONResult.OK, state)

def onFloatingPointElement (name : String) (value : D) (state : RollbarCrash_AppState D) :
    JSONResult × RollbarCrash_AppState D :=
  let state :=
    if name = kKeyActiveDurationSinceLastCrash then
      { state with activeDurationSinceLastCrash := value }
    else state
  let state :=
    if name = kKeyBackgroundDurationSinceLastCrash then
      { state with backgroundDurationSinceLastCrash := value }
    else state
  (JSONResult.OK, state)

def onIntegerElement [IntCast D] (name : String) (value : Int)
    (state : RollbarCrash_AppState D) : JSONResult × RollbarCrash_AppState D :=
  if name = kKeyFormatVersion ∧ value ≠ kFormatVersion then
    (JSONResult.ERROR_INVALID_DATA, state)
  else
    let state :=
      if name = kKeyFormatVersion then state
      else if name = kKeyLaunchesSinceLastCrash then
        { state with launchesSinceLastCrash := CInt.ofInt value }
      else if name = kKeySessionsSinceLastCrash then
        { state with sessionsSinceLastCrash := CInt.ofInt value }
      else state
    -- FP value might have been written as a whole number.
    onFloatingPointElement name (value : D) state

def onNullElement (_name : String) (state : RollbarCrash_AppState D) :
    JSONResult × RollbarCrash_AppState D :=
  (JSONResult.OK, state)

def onStringElement (_name : String) (_value : String) (state : RollbarCrash_AppState D) :
    JSONResult × RollbarCrash_AppState D :=
  (JSONResult.OK, state)

def onBeginObject (_name : Option String) (state : RollbarCrash_AppState D) :
    JSONResult × RollbarCrash_AppState D :=
  (JSONResult.OK, state)

def onBeginArray (_name : Option String) (state : RollbarCrash_AppState D) :
    JSONResult × RollbarCrash_AppState D :=
  (JSONResult.OK, state)

def onEndContainer (state : RollbarCrash_AppState D) :
    JSONResult × RollbarCrash_AppState D :=
  (JSONResult.OK, state)

def onEndData (state : RollbarCrash_AppState D) : JSONResult × RollbarCrash_AppState D :=
  (JSONResult.OK, state)

/-- The callback table filled in by `loadState`: each element kind goes to its callback. -/
def callbacks [IntCast D] (e : Element D) (state : RollbarCrash_AppState D) :
    JSONResult × RollbarCrash_AppState D :=
  match e with
  | .beginObject name => onBeginObject name state
  | .beginArray name => onBeginArray name state
  | .booleanElement name value => onBooleanElement name value state
  | .floatingPointElement name value => onFloatingPointElement name value state
  | .integerElement name value => onIntegerElement name value state
  | .nullElement name => onNullElement name state
  | .stringElement name value => onStringElement name value state
  | .endContainer => onEndContainer state

/-- Modelled from the spec: the element loop of `rcjson_decode` (the decoder is not among
the sources): one callback per element, in order, stopping at the first status that is
not `OK`; fields applied before the stop stay applied. -/
def decodeElements [IntCast D] :
    List (Element D) → RollbarCrash_AppState D → JSONResult × RollbarCrash_AppState D
  | [], state => (JSONResult.OK, state)
  | e :: rest, state =>
    match callbacks e state with
    | (JSONResult.OK, state) => decodeElements rest state
    | (err, state) => (err, state)

/-- Modelled from the spec: `rcjson_decode` on a buffer: the element loop, then the callback
for the end of the data or, for a malformed buffer, an error. -/
def rcjson_decode [IntCast D] (doc : Document D) (state : RollbarCrash_AppState D) :
    JSONResult × RollbarCrash_AppState D :=
  match decodeElements doc.elements state with
  | (JSONResult.OK, state) =>
    if doc.complete then onEndData state else (JSONResult.ERROR_INCOMPLETE, state)
  | (err, state) => (err, state)

end Callbacks

/-! ## Utility -/

section Utility

variable {D : Type}

/-- The clock read `getCurrentTime()`: it returns the reading the surroundings supply, and
the surroundings as the rest of the operation finds them, where the next read returns
`later`. -/
def getCurrentTime (e : Env D) : D × Env D :=
  (e.now, { e with now := e.later })

def timeSince [Sub D] (e : Env D) (timeInSeconds : D) : D × Env D :=
  ((getCurrentTime e).1 - timeInSeconds, (getCurrentTime e).2)

end Utility

/-! ## Persisting and loading the record -/

section Persistence

variable {D : Type}

/-- The encoder calls of `saveState` before `rcjson_endEncode`, in order. -/
def savedElements (state : RollbarCrash_AppState D) : List (Element D) :=
  [ Element.beginObject none,
    Element.integerElement kKeyFormatVersion kFormatVersion,
    -- Record this launch crashed state into "crashed last launch" field.
    Element.booleanElement kKeyCrashedLastLaunch state.crashedThisLaunch,
    Element.floatingPointElement kKeyActiveDurationSinceLastCrash
      state.activeDurationSinceLastCrash,
    Element.floatingPointElement kKeyBackgroundDurationSinceLastCrash
      state.backgroundDurationSinceLastCrash,
    Element.integerElement kKeyLaunchesSinceLastCrash state.launchesSinceLastCrash.val,
    Element.integerElement kKeySessionsSinceLastCrash state.sessionsSinceLastCrash.val ]

/-- All encoder calls of `saveState`: `rcjson_endEncode` closes the open object. -/
def encoderCalls (state : RollbarCrash_AppState D) : List (Element D) :=
  savedElements state ++ [Element.endContainer]

/-- What `saveState` leaves in the file once `open` has truncated it: the calls the sink
accepted; the document is complete when every call was accepted. -/
def writtenDocument (capacity : Nat) (state : RollbarCrash_AppState D) : Document D :=
  { elements := (encoderCalls state).take capacity
    complete := decide ((encoderCalls state).length ≤ capacity) }

/-- The function `saveState`.  A failed `open` leaves the file alone and returns false.
Otherwise the file is truncated and the encoder calls are made in order; the first call the
sink refuses ends the sequence (`goto done`), and the result is true when no call was
refused. -/
def saveState (e : Env D) (r : Recorder D) : Recorder D × Bool :=
  let r := { r with saveCalls := r.saveCalls + 1 }
  if e.openOK then
    let doc := writtenDocument e.sinkCapacity r.g_state
    ({ r with file := some doc }, doc.complete)
  else
    (r, false)

/-- The function `loadState`.  No file, or a file that cannot be read whole: false, record
untouched.  Otherwise the decoder runs the callbacks on `g_state`; the result is true when
it reports `OK`, and what the callbacks wrote before an error stays written. -/
def loadState [IntCast D] (e : Env D) (r : Recorder D) : Recorder D × Bool :=
  match r.file with
  | none => (r, false)
  | some doc =>
    if e.readOK then
      match rcjson_decode doc r.g_state with
      | (JSONResult.OK, state) => ({ r with g_state := state }, true)
      | (_, state) => ({ r with g_state := state }, false)
    else
      (r, false)

def updateAppState [Add D] [Sub D] (e : Env D) (state : RollbarCrash_AppState D) :
    RollbarCrash_AppState D :=
  let duration := (timeSince e state.appStateTransitionTime).1
  let e := (timeSince e state.appStateTransitionTime).2
  let state := { state with appStateTransitionTime := (getCurrentTime e).1 }
  if state.applicationIsActive then
    { state with
      activeDurationSinceLaunch := state.activeDurationSinceLaunch + duration
      activeDurationSinceLastCrash := state.activeDurationSinceLastCrash + duration }
  else if !state.applicationIsInForeground then
    { state with
      backgroundDurationSinceLaunch := state.backgroundDurationSinceLaunch + duration
      backgroundDurationSinceLastCrash := state.backgroundDurationSinceLastCrash + duration }
  else
    state

end Persistence

/-! ## API -/

section API

variable {D : Type}

def rcstate_initialize [IntCast D] (e : Env D) (r : Recorder D) : Recorder D :=
  (loadState e r).1

def rcstate_reset [Zero D] (e : Env D) (r : Recorder D) : Recorder D × Bool :=
  if r.g_isEnabled then
    let state := r.g_state
    let state :=
      { state with
        sessionsSinceLaunch := CInt.ofInt 1
        activeDurationSinceLaunch := 0
        backgroundDurationSinceLaunch := 0 }
    let state :=
      if state.crashedLastLaunch then
        { state with
          activeDurationSinceLastCrash := 0
          backgroundDurationSinceLastCrash := 0
          launchesSinceLastCrash := CInt.ofInt 0
          sessionsSinceLastCrash := CInt.ofInt 0 }
      else state
    let state := { state with crashedThisLaunch := false }
    -- Simulate first transition to foreground
    let state :=
      { state with
        launchesSinceLastCrash := state.launchesSinceLastCrash.incr
        sessionsSinceLastCrash := state.sessionsSinceLastCrash.incr
        applicationIsInForeground := true }
    saveState e { r with g_state := state }
  else
    (r, false)

def rcstate_notifyObjCLoad [Zero D] (e : Env D) (r : Recorder D) : Recorder D :=
  let state : RollbarCrash_AppState D := zeroedState
  let state := { state with applicationIsInForeground := false }
  let state := { state with applicationIsActive := true }
  let state := { state with appStateTransitionTime := (getCurrentTime e).1 }
  { r with g_state := state }

def rcstate_notifyAppActive [Add D] [Sub D] (e : Env D) (isActive : Bool) (r : Recorder D) :
    Recorder D :=
  if r.g_isEnabled then
    let state := { r.g_state with applicationIsActive := isActive }
    if isActive then
      { r with g_state := { state with appStateTransitionTime := (getCurrentTime e).1 } }
    else
      let duration := (timeSince e state.appStateTransitionTime).1
      { r with g_state :=
        { state with
          activeDurationSinceLaunch := state.activeDurationSinceLaunch + duration
          activeDurationSinceLastCrash := state.activeDurationSinceLastCrash + duration } }
  else r

def rcstate_notifyAppInForeground [Add D] [Sub D] (e : Env D) (isInForeground : Bool)
    (r : Recorder D) : Recorder D :=
  if r.g_isEnabled then
    let state := { r.g_state with applicationIsInForeground := isInForeground }
    if isInForeground then
      let duration := (getCurrentTime e).1 - state.appStateTransitionTime
      { r with g_state :=
        { state with
          backgroundDurationSinceLaunch := state.backgroundDurationSinceLaunch + duration
          backgroundDurationSinceLastCrash := state.backgroundDurationSinceLastCrash + duration
          sessionsSinceLastCrash := state.sessionsSinceLastCrash.incr
          sessionsSinceLaunch := state.sessionsSinceLaunch.incr } }
    else
      (saveState e
        { r with g_state :=
          { state with appStateTransitionTime := (getCurrentTime e).1 } }).1
  else r

def rcstate_notifyAppTerminate [Add D] [Sub D] (e : Env D) (r : Recorder D) : Recorder D :=
  if r.g_isEnabled then
    (saveState e { r with g_state := updateAppState e r.g_state }).1
  else r

def rcstate_notifyAppCrash [Add D] [Sub D] (e : Env D) (r : Recorder D) : Recorder D :=
  if r.g_isEnabled then
    let state := updateAppState e r.g_state
    let state := { state with crashedThisLaunch := true }
    (saveState e { r with g_state := state }).1
  else r

def rcstate_currentState (r : Recorder D) : RollbarCrash_AppState D :=
  r.g_state

def setEnabled [Zero D] (e : Env D) (isEnabled : Bool) (r : Recorder D) : Recorder D :=
  if isEnabled ≠ r.g_isEnabled then
    let r := { r with g_isEnabled := isEnabled }
    if isEnabled then (rcstate_reset e r).1 else r
  else r

def isEnabled (r : Recorder D) : Bool :=
  r.g_isEnabled

def addContextualInfoToEvent [Add D] [Sub D] (e : Env D) (r : Recorder D)
    (eventContext : RollbarCrash_MonitorContext D) :
    Recorder D × RollbarCrash_MonitorContext D :=
  if r.g_isEnabled then
    let g_state := updateAppState e r.g_state
    let eventContext :=
      { eventContext with
        AppState :=
          { eventContext.AppState with
            activeDurationSinceLastCrash := g_state.activeDurationSinceLastCrash
            activeDurationSinceLaunch := g_state.activeDurationSinceLaunch
            applicationIsActive := g_state.applicationIsActive
            applicationIsInForeground := g_state.applicationIsInForeground
            appStateTransitionTime := g_state.appStateTransitionTime
            backgroundDurationSinceLastCrash := g_state.backgroundDurationSinceLastCrash
            backgroundDurationSinceLaunch := g_state.backgroundDurationSinceLaunch
            crashedLastLaunch := g_state.crashedLastLaunch
            crashedThisLaunch := g_state.crashedThisLaunch
            launchesSinceLastCrash := g_state.launchesSinceLastCrash
            sessionsSinceLastCrash := g_state.sessionsSinceLastCrash
            sessionsSinceLaunch := g_state.sessionsSinceLaunch } }
    ({ r with g_state := g_state }, eventContext)
  else (r, eventContext)

/-- The notifications a running recorder receives after it has been set up. -/
inductive Notification where
  | appActive (isActive : Bool)
  | appInForeground (isInForeground : Bool)
  | appTerminate
  | appCrash
  | contextualInfo
deriving DecidableEq, Repr

/-- One notification, run on the recorder; `contextualInfo` fills a report context that the
caller owns, so only its effect on the recorder is kept here. -/
def notify [Zero D] [Add D] [Sub D] (r : Recorder D) (ev : Env D × Notification) :
    Recorder D :=
  match ev.2 with
  | .appActive isActive => rcstate_notifyAppActive ev.1 isActive r
  | .appInForeground isInForeground => rcstate_notifyAppInForeground ev.1 isInForeground r
  | .appTerminate => rcstate_notifyAppTerminate ev.1 r
  | .appCrash => rcstate_notifyAppCrash ev.1 r
  | .contextualInfo =>
    (addContextualInfoToEvent ev.1 r { AppState := zeroedState }).1

/-- A sequence of notifications, run in order. -/
def notifyAll [Zero D] [Add D] [Sub D] (r : Recorder D) (evs : List (Env D × Notification)) :
    Recorder D :=
  evs.foldl notify r

end API

/-! ## Machine context (32-bit ARM) -/

section CPU

/-- A read outside the bounds of the named array, at the given index. -/
inductive Fault where
  | outOfBounds (array : String) (index : Int)
deriving DecidableEq, Repr

/-- Modelled from the spec: the thread state `__ss` of the machine context (its type comes
from headers that are not among the sources): thirteen general registers `__r[13]`, then
`__sp`, `__lr`, `__pc` and `__cpsr`. -/
structure ThreadState where
  __r : Fin 13 → Nat
  __sp : Nat
  __lr : Nat
  __pc : Nat
  __cpsr : Nat

/-- Modelled from the spec: the exception state `__es` of the machine context (its type
comes from headers that are not among the sources). -/
structure ExceptionState where
  __exception : Nat
  __fsr : Nat
  __far : Nat

/-- Modelled from the spec: the machine context `STRUCT_MCONTEXT_L` (its type comes from
headers that are not among the sources): the thread state and the exception state that
`rccpu_getState` fills. -/
structure STRUCT_MCONTEXT_L where
  __ss : ThreadState
  __es : ExceptionState

/-- Modelled from the spec: the part of `RollbarCrashMachineContext` (declared in
`RollbarCrashMachineContext_Apple.h`, not among the sources) that the accessors read. -/
structure RollbarCrashMachineContext where
  machineContext : STRUCT_MCONTEXT_L

/-- The C expression `table[i]` on a table of strings. -/
def readName (array : String) (table : List String) (i : Int) : Except Fault (Option String) :=
  if 0 ≤ i ∧ i < table.length then Except.ok (table.get? i.toNat)
  else Except.error (Fault.outOfBounds array i)

/-- The C expression `context->machineContext.__ss.__r[i]`. -/
def readR (context : RollbarCrashMachineContext) (i : Int) : Except Fault Nat :=
  if h : 0 ≤ i ∧ i < 13 then Except.ok (context.machineContext.__ss.__r ⟨i.toNat, by omega⟩)
  else Except.error (Fault.outOfBounds "__r" i)

def g_registerNames : List String :=
  [ "r0", "r1", "r2", "r3", "r4", "r5", "r6", "r7",
    "r8", "r9", "r10", "r11", "ip",
    "sp", "lr", "pc", "cpsr" ]

def g_registerNamesCount : Int := g_registerNames.length

def g_exceptionRegisterNames : List String :=
  [ "exception", "fsr", "far" ]

def g_exceptionRegisterNamesCount : Int := g_exceptionRegisterNames.length

def rccpu_framePointer (context : RollbarCrashMachineContext) : Nat :=
  context.machineContext.__ss.__r 7

def rccpu_stackPointer (context : RollbarCrashMachineContext) : Nat :=
  context.machineContext.__ss.__sp

def rccpu_instructionAddress (context : RollbarCrashMachineContext) : Nat :=
  context.machineContext.__ss.__pc

def rccpu_linkRegister (context : RollbarCrashMachineContext) : Nat :=
  context.machineContext.__ss.__lr

def rccpu_numRegisters : Int :=
  g_registerNamesCount

def rccpu_registerName (regNumber : Int) : Except Fault (Option String) :=
  if regNumber < rccpu_numRegisters then
    readName "g_registerNames" g_registerNames regNumber
  else
    Except.ok none

def rccpu_registerValue (context : RollbarCrashMachineContext) (regNumber : Int) :
    Except Fault Nat :=
  if regNumber ≤ 12 then
    readR context regNumber
  else if regNumber = 13 then Except.ok context.machineContext.__ss.__sp
  else if regNumber = 14 then Except.ok context.machineContext.__ss.__lr
  else if regNumber = 15 then Except.ok context.machineContext.__ss.__pc
  else if regNumber = 16 then Except.ok context.machineContext.__ss.__cpsr
  else Except.ok 0

def rccpu_numExceptionRegisters : Int :=
  g_exceptionRegisterNamesCount

def rccpu_exceptionRegisterName (regNumber : Int) : Except Fault (Option String) :=
  if regNumber < rccpu_numExceptionRegisters then
    readName "g_exceptionRegisterNames" g_exceptionRegisterNames regNumber
  else
    Except.ok none

def rccpu_exceptionRegisterValue (context : RollbarCrashMachineContext) (regNumber : Int) :
    Except Fault Nat :=
  if regNumber = 0 then Except.ok context.machineContext.__es.__exception
  else if regNumber = 1 then Except.ok context.machineContext.__es.__fsr
  else if regNumber = 2 then Except.ok context.machineContext.__es.__far
  else Except.ok 0

def rccpu_faultAddress (context : RollbarCrashMachineContext) : Nat :=
  context.machineContext.__es.__far

def rccpu_stackGrowDirection : Int :=
  -1

def rccpu_normaliseInstructionPointer (ip : Nat) : Nat :=
  ip

end CPU

/-! ## Auxiliary definitions for the statements -/

section Aux

variable {D : Type}

/-- The record `target` after the six persisted values of `source` were merged into it. -/
def mergePersisted (source target : RollbarCrash_AppState D) : RollbarCrash_AppState D :=
  { target with
    crashedLastLaunch := source.crashedThisLaunch
    activeDurationSinceLastCrash := source.activeDurationSinceLastCrash
    backgroundDurationSinceLastCrash := source.backgroundDurationSinceLastCrash
    launchesSinceLastCrash := source.launchesSinceLastCrash
    sessionsSinceLastCrash := source.sessionsSinceLastCrash }

/-- The start of a process: module-load notification, `initialize`, `set_enabled(true)`. -/
def firstLaunch [Zero D] [IntCast D] (eLoad eInit eEnable : Env D) (r0 : Recorder D) :
    Recorder D :=
  setEnabled eEnable true ( rcstate_initialize eInit (rcstate_notifyObjCLoad eLoad r0))

/-- A sample environment over whole seconds: both clock reads return `now`, the file can
be opened and read, and the sink accepts `capacity` encoder calls. -/
def sampleEnv (now : Int) (capacity : Nat) : Env Int :=
  { now := now, later := now, openOK := true, sinkCapacity := capacity, readOK := true }

/-- A sample environment over whole seconds in which the clock advances between the two
reads: the first returns `now`, the second `later`. -/
def sampleReads (now later : Int) : Env Int :=
  { now := now, later := later, openOK := true, sinkCapacity := 8, readOK := true }

/-- A sample recorder over whole seconds: disabled, no state file, and a record left over from
an earlier use (five launches, previous launch crashed). -/
def sampleRecorder : Recorder Int :=
  { g_state :=
      { activeDurationSinceLastCrash := 40
        backgroundDurationSinceLastCrash := 20
        launchesSinceLastCrash := CInt.ofInt 5
        sessionsSinceLastCrash := CInt.ofInt 7
        activeDurationSinceLaunch := 4
        backgroundDurationSinceLaunch := 2
        sessionsSinceLaunch := CInt.ofInt 3
        crashedLastLaunch := true
        crashedThisLaunch := false
        appStateTransitionTime := 100
        applicationIsActive := true
        applicationIsInForeground := false }
    g_isEnabled := false
    file := none
    saveCalls := 0 }

/-- The sample recorder with the monitor enabled. -/
def sampleEnabled : Recorder Int :=
  { sampleRecorder with g_isEnabled := true }

/-- An element the load callbacks do not recognise: it has no key, or its key is none of
the six persisted key names. -/
def Element.unrecognized (x : Element D) : Prop :=
  ∀ k, x.key = some k → k ∉ persistedKeys

instance Element.decidableUnrecognized (x : Element D) : Decidable x.unrecognized :=
  match h : x.key with
  | none => isTrue (fun k hk => by rw [h] at hk; cases hk)
  | some name =>
    if hname : name ∈ persistedKeys then isFalse (fun hx => hx name h hname)
    else isTrue (fun k hk => by rw [h] at hk; cases hk; exact hname)

/-- An element with the key `sessionsSinceLaunch`, which the file format does not use. -/
def sampleExtraElement : Element Int :=
  Element.stringElement kKeySessionsSinceLaunch "3"

/-- A sample file of a later format: the first keyed element is `version = 2`. -/
def sampleVersion2 : Document Int :=
  { elements :=
      [ Element.beginObject none,
        Element.integerElement kKeyFormatVersion 2,
        Element.booleanElement kKeyCrashedLastLaunch false,
        Element.integerElement kKeyLaunchesSinceLastCrash 9,
        Element.endContainer ]
    complete := true }

/-- The sum `activeDurationSinceLaunch + backgroundDurationSinceLaunch`. -/
def sinceLaunchTotal [Add D] (state : RollbarCrash_AppState D) : D :=
  state.activeDurationSinceLaunch + state.backgroundDurationSinceLaunch

/-- The notifications that reconcile elapsed time through `updateAppState`. -/
def Notification.reconciles : Notification → Bool
  | .appTerminate => true
  | .appCrash => true
  | .contextualInfo => true
  | _ => false

/-- The notifications that add the elapsed time to a pair of durations and leave the time
stamp alone: `notify_active(false)` and `notify_foreground(true)`. -/
inductive Accumulating where
  | resignActive
  | enterForeground
deriving DecidableEq, Repr

def Accumulating.notification : Accumulating → Notification
  | .resignActive => Notification.appActive false
  | .enterForeground => Notification.appInForeground true

/-- The notifications that set the time stamp and add nothing: `notify_active(true)` and
`notify_foreground(false)`. -/
inductive Stamping where
  | becomeActive
  | enterBackground
deriving DecidableEq, Repr

def Stamping.notification : Stamping → Notification
  | .becomeActive => Notification.appActive true
  | .enterBackground => Notification.appInForeground false

/-- A step of the application life cycle: a notification that accumulates, directly
followed by one that stamps (resign active then enter the background, enter the foreground
then become active, resign active then become active again, ...), or a notification that
stamps on its own, or a report being built.  The sequences of such steps are the sequences
of notifications in which every accumulating one is directly followed by a stamping
one. -/
inductive LifecyclePhase (D : Type) where
  | pair (leave : Env D) (leaving : Accumulating) (enter : Env D) (entering : Stamping)
  | single (enter : Env D) (entering : Stamping)
  | report (e : Env D)

/-- The notifications of a phase, in order. -/
def LifecyclePhase.events : LifecyclePhase D → List (Env D × Notification)
  | .pair leave leaving enter entering =>
    [(leave, leaving.notification), (enter, entering.notification)]
  | .single enter entering => [(enter, entering.notification)]
  | .report e => [(e, Notification.contextualInfo)]

/-- The time a phase leaves out of the durations, given the time stamp `stamp` it starts
from: the time between its two notifications, or the time since `stamp` for a notification
that stamps on its own, or the time between the two clock reads of the report. -/
def LifecyclePhase.gap [Sub D] (stamp : D) : LifecyclePhase D → D
  | .pair leave _ enter _ => enter.now - leave.now
  | .single enter _ => enter.now - stamp
  | .report e => e.later - e.now

/-- The time stamp a phase leaves behind. -/
def LifecyclePhase.stampAfter : LifecyclePhase D → D
  | .pair _ _ enter _ => enter.now
  | .single enter _ => enter.now
  | .report e => e.later

/-- The notifications of a sequence of phases, in order. -/
def lifecycleEvents : List (LifecyclePhase D) → List (Env D × Notification)
  | [] => []
  | p :: ps => p.events ++ lifecycleEvents ps

/-- The time a sequence of phases leaves out of the durations, starting from the time
stamp `stamp`. -/
def totalGap [Zero D] [Add D] [Sub D] (stamp : D) : List (LifecyclePhase D) → D
  | [] => 0
  | p :: ps => p.gap stamp + totalGap p.stampAfter ps

/-- The state in which elapsed time is accounted for up to the last time stamp, but for
`lost`: the application is active or in the background, and the since-launch total is the
time from `t0` to `appStateTransitionTime` less `lost`. -/
def Conserved [Add D] [Sub D] (t0 lost : D) (state : RollbarCrash_AppState D) : Prop :=
  (state.applicationIsActive = true ∨ state.applicationIsInForeground = false)
  ∧ sinceLaunchTotal state = state.appStateTransitionTime - t0 - lost

/-- The operations of the recorder that change the record. -/
inductive Operation where
  | moduleLoad
  | reset
  | notification (n : Notification)
deriving DecidableEq, Repr

/-- One operation, run on the recorder. -/
def Operation.run [Zero D] [Add D] [Sub D] (op : Operation) (e : Env D) (r : Recorder D) :
    Recorder D :=
  match op with
  | .moduleLoad => rcstate_notifyObjCLoad e r
  | .reset => (rcstate_reset e r).1
  | .notification n => notify r (e, n)

/-- A sample day over whole seconds: resign active at 5, enter the background at 7,
terminate at 10. -/
def sampleDay : List (Env Int × Notification) :=
  [ (sampleEnv 5 8, Notification.appActive false),
    (sampleEnv 7 8, Notification.appInForeground false),
    (sampleEnv 10 8, Notification.appTerminate) ]

/-- A sample life cycle over whole seconds: become active at 3, resign active at 5 and
enter the background at 7, enter the foreground and become active at 9, a report whose
clock reads are 10 and 11. -/
def samplePhases : List (LifecyclePhase Int) :=
  [ LifecyclePhase.single (sampleEnv 3 8) Stamping.becomeActive,
    LifecyclePhase.pair (sampleEnv 5 8) Accumulating.resignActive
      (sampleEnv 7 8) Stamping.enterBackground,
    LifecyclePhase.pair (sampleEnv 9 8) Accumulating.enterForeground
      (sampleEnv 9 8) Stamping.becomeActive,
    LifecyclePhase.report (sampleReads 10 11) ]

/-- Both active durations of `after` are those of `before`. -/
def activePairUnchanged (before after : RollbarCrash_AppState D) : Prop :=
  after.activeDurationSinceLaunch = before.activeDurationSinceLaunch
  ∧ after.activeDurationSinceLastCrash = before.activeDurationSinceLastCrash

/-- Both active durations of `after` are those of `before` plus `d`. -/
def activePairAdded [Add D] (d : D) (before after : RollbarCrash_AppState D) : Prop :=
  after.activeDurationSinceLaunch = before.activeDurationSinceLaunch + d
  ∧ after.activeDurationSinceLastCrash = before.activeDurationSinceLastCrash + d

/-- Both background durations of `after` are those of `before`. -/
def backgroundPairUnchanged (before after : RollbarCrash_AppState D) : Prop :=
  after.backgroundDurationSinceLaunch = before.backgroundDurationSinceLaunch
  ∧ after.backgroundDurationSinceLastCrash = before.backgroundDurationSinceLastCrash

/-- Both background durations of `after` are those of `before` plus `d`. -/
def backgroundPairAdded [Add D] (d : D) (before after : RollbarCrash_AppState D) : Prop :=
  after.backgroundDurationSinceLaunch = before.backgroundDurationSinceLaunch + d
  ∧ after.backgroundDurationSinceLastCrash = before.backgroundDurationSinceLastCrash + d

/-- A sample snapshot: every register, general and exception, holds `v`. -/
def sampleContext (v : Nat) : RollbarCrashMachineContext :=
  { machineContext :=
      { __ss := { __r := fun _ => v, __sp := v, __lr := v, __pc := v, __cpsr := v }
        __es := { __exception := v, __fsr := v, __far := v } } }

/-- Index `i` has a value source in the reader `read`: what is read there depends on the
snapshot. -/
def hasValueSource (read : RollbarCrashMachineContext → Int → Except Fault Nat) (i : Int) :
    Prop :=
  ∃ c1 c2, read c1 i ≠ read c2 i

/-- Index `i` has a name in the reader `name`. -/
def hasName (name : Int → Except Fault (Option String)) (i : Int) : Prop :=
  ∃ n, name i = Except.ok (some n)

/-- A sample report context over whole seconds, not yet filled in. -/
def sampleEventContext : RollbarCrash_MonitorContext Int :=
  { AppState := zeroedState }

/-- The five values `saveState` writes are the same in both records. -/
def samePersistedValues (a b : RollbarCrash_AppState D) : Prop :=
  a.crashedThisLaunch = b.crashedThisLaunch
  ∧ a.activeDurationSinceLastCrash = b.activeDurationSinceLastCrash
  ∧ a.backgroundDurationSinceLastCrash = b.backgroundDurationSinceLastCrash
  ∧ a.launchesSinceLastCrash = b.launchesSinceLastCrash
  ∧ a.sessionsSinceLastCrash = b.sessionsSinceLastCrash

/-- The since-last-crash durations and session counter equal their since-launch
counterparts. -/
def CrashScopeEqualsLaunch (state : RollbarCrash_AppState D) : Prop :=
  state.activeDurationSinceLastCrash = state.activeDurationSinceLaunch
  ∧ state.backgroundDurationSinceLastCrash = state.backgroundDurationSinceLaunch
  ∧ state.sessionsSinceLastCrash = state.sessionsSinceLaunch

/-- Both session counters of `after` are those of `before`. -/
def sessionPairUnchanged (before after : RollbarCrash_AppState D) : Prop :=
  after.sessionsSinceLaunch = before.sessionsSinceLaunch
  ∧ after.sessionsSinceLastCrash = before.sessionsSinceLastCrash

/-- Both session counters of `after` are those of `before` after one `++`. -/
def sessionPairIncremented (before after : RollbarCrash_AppState D) : Prop :=
  after.sessionsSinceLaunch = before.sessionsSinceLaunch.incr
  ∧ after.sessionsSinceLastCrash = before.sessionsSinceLastCrash.incr

/-- A sample sequence of notifications over whole seconds: active at 3, inactive at 5,
background at 7, a report at 8, foreground at 9, crash at 12. -/
def sampleNotifications : List (Env Int × Notification) :=
  [ (sampleEnv 3 8, Notification.appActive true),
    (sampleEnv 5 8, Notification.appActive false),
    (sampleEnv 7 8, Notification.appInForeground false),
    (sampleEnv 8 8, Notification.contextualInfo),
    (sampleEnv 9 8, Notification.appInForeground true),
    (sampleEnv 12 8, Notification.appCrash) ]

/-- The record with the pair of durations that `updateAppState` counts for it (the active
pair if active, the background pair if neither active nor in the foreground, none
otherwise) reduced by `d`. -/
def withoutGap [Sub D] (d : D) (state : RollbarCrash_AppState D) : RollbarCrash_AppState D :=
  if state.applicationIsActive then
    { state with
      activeDurationSinceLaunch := state.activeDurationSinceLaunch - d
      activeDurationSinceLastCrash := state.activeDurationSinceLastCrash - d }
  else if !state.applicationIsInForeground then
    { state with
      backgroundDurationSinceLaunch := state.backgroundDurationSinceLaunch - d
      backgroundDurationSinceLastCrash := state.backgroundDurationSinceLastCrash - d }
  else state

/-- The enabled sample recorder with `sessionsSinceLastCrash` at `INT_MAX`. -/
def sampleSaturated : Recorder Int :=
  { sampleEnabled with
    g_state :=
      { sampleEnabled.g_state with sessionsSinceLastCrash := CInt.ofInt 2147483647 } }

end Aux

/-! ## Lemmas on C integers -/

section IntLemmas

theorem CInt.ofInt_val (n : Int) (hlo : -2147483648 ≤ n) (hhi : n ≤ 2147483647) :
    (CInt.ofInt n).val = n := by
  show (n + 2147483648) % 4294967296 - 2147483648 = n
  omega

theorem CInt.ofInt_self (x : CInt) : CInt.ofInt x.val = x := by
  apply Subtype.ext
  exact CInt.ofInt_val x.val x.property.1 x.property.2

theorem CInt.incr_val (x : CInt) (h : x.val < 2147483647) : x.incr.val = x.val + 1 := by
  have hx := x.property.1
  exact CInt.ofInt_val (x.val + 1) (by omega) (by omega)

theorem CInt.ofInt_zero_val : (CInt.ofInt 0).val = 0 := by decide

theorem CInt.ofInt_one_val : (CInt.ofInt 1).val = 1 := by decide

theorem CInt.incr_zero_val : (CInt.ofInt 0).incr.val = 1 := by decide

end IntLemmas

/-! ## The enabled flag and the notifications -/

section FlagLemmas

variable {D : Type}

@[simp] theorem getCurrentTime_eq (e : Env D) :
    getCurrentTime e = (e.now, { e with now := e.later }) := rfl

@[simp] theorem timeSince_eq [Sub D] (e : Env D) (timeInSeconds : D) :
    timeSince e timeInSeconds = (e.now - timeInSeconds, { e with now := e.later }) := rfl

theorem saveState_g_state (e : Env D) (r : Recorder D) :
    (saveState e r).1.g_state = r.g_state := by
  unfold saveState
  by_cases h : e.openOK = true <;> simp [h]

theorem saveState_g_isEnabled (e : Env D) (r : Recorder D) :
    (saveState e r).1.g_isEnabled = r.g_isEnabled := by
  unfold saveState
  by_cases h : e.openOK = true <;> simp [h]

theorem saveState_saveCalls (e : Env D) (r : Recorder D) :
    (saveState e r).1.saveCalls = r.saveCalls + 1 := by
  unfold saveState
  by_cases h : e.openOK = true <;> simp [h]

theorem notify_g_isEnabled [Zero D] [Add D] [Sub D] (r : Recorder D)
    (ev : Env D × Notification) : (notify r ev).g_isEnabled = r.g_isEnabled := by
  obtain ⟨e, n⟩ := ev
  cases n with
  | appActive isActive =>
    cases isActive <;> by_cases h : r.g_isEnabled = true <;>
      simp [notify, rcstate_notifyAppActive, h]
  | appInForeground isInForeground =>
    cases isInForeground <;> by_cases h : r.g_isEnabled = true <;>
      simp [notify, rcstate_notifyAppInForeground, h, saveState_g_isEnabled]
  | appTerminate =>
    by_cases h : r.g_isEnabled = true <;>
      simp [notify, rcstate_notifyAppTerminate, h, saveState_g_isEnabled]
  | appCrash =>
    by_cases h : r.g_isEnabled = true <;>
      simp [notify, rcstate_notifyAppCrash, h, saveState_g_isEnabled]
  | contextualInfo =>
    by_cases h : r.g_isEnabled = true <;>
      simp [notify, addContextualInfoToEvent, h]

theorem notifyAll_g_isEnabled [Zero D] [Add D] [Sub D] (evs : List (Env D × Notification))
    (r : Recorder D) : (notifyAll r evs).g_isEnabled = r.g_isEnabled := by
  induction evs generalizing r with
  | nil => rfl
  | cons ev rest ih =>
    show (notifyAll (notify r ev) rest).g_isEnabled = r.g_isEnabled
    rw [ih, notify_g_isEnabled]

end FlagLemmas

/-! ## Decoding what `saveState` wrote -/

section DecodeLemmas

variable {D : Type}

theorem decodeElements_encoderCalls [IntCast D] (source target : RollbarCrash_AppState D) :
    decodeElements (encoderCalls source) target
      = (JSONResult.OK, mergePersisted source target) := by
  simp [encoderCalls, savedElements, decodeElements, callbacks, onBeginObject,
    onIntegerElement, onBooleanElement, onFloatingPointElement, onEndContainer,
    kKeyFormatVersion, kKeyCrashedLastLaunch, kKeyActiveDurationSinceLastCrash,
    kKeyBackgroundDurationSinceLastCrash, kKeyLaunchesSinceLastCrash,
    kKeySessionsSinceLastCrash, kFormatVersion, mergePersisted, CInt.ofInt_self]

theorem encoderCalls_length (state : RollbarCrash_AppState D) :
    (encoderCalls state).length = 8 := by
  simp [encoderCalls, savedElements]

theorem writtenDocument_of_capacity (capacity : Nat) (state : RollbarCrash_AppState D)
    (h : 8 ≤ capacity) :
    writtenDocument capacity state = { elements := encoderCalls state, complete := true } := by
  have hLen := encoderCalls_length state
  unfold writtenDocument
  rw [List.take_of_length_le (by omega)]
  simp [hLen, h]

theorem loadState_encoderCalls [IntCast D] (e : Env D) (r : Recorder D)
    (source : RollbarCrash_AppState D)
    (hFile : r.file = some { elements := encoderCalls source, complete := true })
    (hRead : e.readOK = true) :
    loadState e r = ({ r with g_state := mergePersisted source r.g_state }, true) := by
  simp [loadState, hFile, hRead, rcjson_decode, decodeElements_encoderCalls, onEndData]

theorem callbacks_of_unrecognized [IntCast D] (x : Element D)
    (state : RollbarCrash_AppState D) (hx : x.unrecognized) :
    callbacks x state = (JSONResult.OK, state) := by
  have key : ∀ name, x.key = some name →
      name ≠ kKeyFormatVersion ∧ name ≠ kKeyCrashedLastLaunch
      ∧ name ≠ kKeyActiveDurationSinceLastCrash ∧ name ≠ kKeyBackgroundDurationSinceLastCrash
      ∧ name ≠ kKeyLaunchesSinceLastCrash ∧ name ≠ kKeySessionsSinceLastCrash := by
    intro name hname
    have h := hx name hname
    simp only [persistedKeys, List.mem_cons, List.mem_singleton, List.not_mem_nil, not_or,
      or_false] at h
    exact h
  cases x with
  | beginObject name => rfl
  | beginArray name => rfl
  | booleanElement name value =>
    obtain ⟨-, h2, -, -, -, -⟩ := key name rfl
    simp [callbacks, onBooleanElement, h2]
  | floatingPointElement name value =>
    obtain ⟨-, -, h3, h4, -, -⟩ := key name rfl
    simp [callbacks, onFloatingPointElement, h3, h4]
  | integerElement name value =>
    obtain ⟨h1, -, h3, h4, h5, h6⟩ := key name rfl
    simp [callbacks, onIntegerElement, onFloatingPointElement, h1, h3, h4, h5, h6]
  | nullElement name => rfl
  | stringElement name value => rfl
  | endContainer => rfl

theorem decodeElements_cons [IntCast D] (x : Element D) (xs : List (Element D))
    (state : RollbarCrash_AppState D) :
    decodeElements (x :: xs) state
      = (match callbacks x state with
          | (JSONResult.OK, state) => decodeElements xs state
          | (err, state) => (err, state)) := by
  rw [decodeElements]

theorem decodeElements_append [IntCast D] (xs ys : List (Element D))
    (state : RollbarCrash_AppState D) :
    decodeElements (xs ++ ys) state
      = (match decodeElements xs state with
          | (JSONResult.OK, state) => decodeElements ys state
          | (err, state) => (err, state)) := by
  induction xs generalizing state with
  | nil => rfl
  | cons x rest ih =>
    show decodeElements (x :: (rest ++ ys)) state = _
    rw [decodeElements_cons, decodeElements_cons]
    rcases callbacks x state with ⟨res, st⟩
    cases res <;> simp [ih]

theorem decodeElements_cons_unrecognized [IntCast D] (x : Element D) (ys : List (Element D))
    (state : RollbarCrash_AppState D) (hx : x.unrecognized) :
    decodeElements (x :: ys) state = decodeElements ys state := by
  rw [decodeElements_cons, callbacks_of_unrecognized x state hx]

theorem decodeElements_insert_unrecognized [IntCast D] (x : Element D)
    (xs ys : List (Element D)) (state : RollbarCrash_AppState D) (hx : x.unrecognized) :
    decodeElements (xs ++ x :: ys) state = decodeElements (xs ++ ys) state := by
  rw [decodeElements_append, decodeElements_append]
  rcases decodeElements xs state with ⟨res, st⟩
  cases res <;> simp [decodeElements_cons_unrecognized x ys st hx]

theorem decodeElements_of_unrecognized [IntCast D] (xs : List (Element D))
    (state : RollbarCrash_AppState D) (hxs : ∀ x ∈ xs, x.unrecognized) :
    decodeElements xs state = (JSONResult.OK, state) := by
  induction xs with
  | nil => rfl
  | cons x rest ih =>
    rw [decodeElements_cons_unrecognized x rest state (hxs x (List.mem_cons_self x rest))]
    exact ih (fun y hy => hxs y (List.mem_cons_of_mem x hy))

end DecodeLemmas

/-! ## Claims on the recorder -/

section RecorderClaims

variable {D : Type}

/-- C1 (crash/restart integrity, first launch).  Start from any disabled recorder without a
state file.  After the module-load notification, `initialize` and `set_enabled(true)` the
record has `sessionsSinceLaunch = 1`, `launchesSinceLastCrash = 1`,
`sessionsSinceLastCrash = 1`, `applicationIsInForeground = true` and
`crashedThisLaunch = false`.  After any further notifications, `notify_crash()` at any clock
value leaves `crashedThisLaunch = true`; when the file can be opened the file holds what the
sink accepted of the encoding of that record, in which `crashedLastLaunch` can only be
`true`; and when the sink accepts the whole document its third element is
`crashedLastLaunch = true` and the next process loads `crashedLastLaunch = true` from it. -/
theorem C1_first_launch_then_crash [Zero D] [Add D] [Sub D] [IntCast D]
    (r0 : Recorder D) (eLoad eInit eEnable eCrash eNext : Env D)
    (evs : List (Env D × Notification))
    (hFile : r0.file = none) (hDisabled : r0.g_isEnabled = false) :
    (firstLaunch eLoad eInit eEnable r0).g_state.sessionsSinceLaunch.val = 1
    ∧ (firstLaunch eLoad eInit eEnable r0).g_state.launchesSinceLastCrash.val = 1
    ∧ (firstLaunch eLoad eInit eEnable r0).g_state.sessionsSinceLastCrash.val = 1
    ∧ (firstLaunch eLoad eInit eEnable r0).g_state.applicationIsInForeground = true
    ∧ (firstLaunch eLoad eInit eEnable r0).g_state.crashedThisLaunch = false
    ∧ (rcstate_notifyAppCrash eCrash
        (notifyAll (firstLaunch eLoad eInit eEnable r0) evs)).g_state.crashedThisLaunch = true
    ∧ (eCrash.openOK = true →
        (rcstate_notifyAppCrash eCrash (notifyAll (firstLaunch eLoad eInit eEnable r0) evs)).file
        = some (writtenDocument eCrash.sinkCapacity
            (rcstate_notifyAppCrash eCrash
              (notifyAll (firstLaunch eLoad eInit eEnable r0) evs)).g_state))
    ∧ (eCrash.openOK = true → ∀ doc v,
        (rcstate_notifyAppCrash eCrash
          (notifyAll (firstLaunch eLoad eInit eEnable r0) evs)).file = some doc →
        Element.booleanElement kKeyCrashedLastLaunch v ∈ doc.elements → v = true)
    ∧ (eCrash.openOK = true → 8 ≤ eCrash.sinkCapacity →
        ∃ doc,
          (rcstate_notifyAppCrash eCrash
            (notifyAll (firstLaunch eLoad eInit eEnable r0) evs)).file = some doc
          ∧ doc.complete = true
          ∧ doc.elements.get? 2 = some (Element.booleanElement kKeyCrashedLastLaunch true)
          ∧ ∀ rNext : Recorder D, rNext.file = some doc → eNext.readOK = true →
              (loadState eNext rNext).2 = true
              ∧ ( rcstate_initialize eNext rNext).g_state.crashedLastLaunch = true) := by
  have hInit : rcstate_initialize eInit (rcstate_notifyObjCLoad eLoad r0)
      = rcstate_notifyObjCLoad eLoad r0 := by
    simp [ rcstate_initialize, loadState, rcstate_notifyObjCLoad, hFile]
  have hFL : firstLaunch eLoad eInit eEnable r0
      = setEnabled eEnable true (rcstate_notifyObjCLoad eLoad r0) := by
    unfold firstLaunch
    rw [hInit]
  have hEn : (firstLaunch eLoad eInit eEnable r0).g_isEnabled = true := by
    rw [hFL]
    simp [setEnabled, rcstate_notifyObjCLoad, hDisabled, rcstate_reset,
      saveState_g_isEnabled]
  have hSt : (firstLaunch eLoad eInit eEnable r0).g_state
      = { (zeroedState : RollbarCrash_AppState D) with
          applicationIsActive := true
          appStateTransitionTime := eLoad.now
          sessionsSinceLaunch := CInt.ofInt 1
          launchesSinceLastCrash := (CInt.ofInt 0).incr
          sessionsSinceLastCrash := (CInt.ofInt 0).incr
          applicationIsInForeground := true } := by
    rw [hFL]
    simp [setEnabled, rcstate_notifyObjCLoad, hDisabled, rcstate_reset,
      saveState_g_state, zeroedState]
  have hEn2 : (notifyAll (firstLaunch eLoad eInit eEnable r0) evs).g_isEnabled = true := by
    rw [notifyAll_g_isEnabled, hEn]
  generalize notifyAll (firstLaunch eLoad eInit eEnable r0) evs = q at hEn2 ⊢
  have hCrashState : (rcstate_notifyAppCrash eCrash q).g_state
      = { updateAppState eCrash q.g_state with crashedThisLaunch := true } := by
    simp [rcstate_notifyAppCrash, hEn2, saveState_g_state]
  have hCrashFile : eCrash.openOK = true → (rcstate_notifyAppCrash eCrash q).file
      = some (writtenDocument eCrash.sinkCapacity (rcstate_notifyAppCrash eCrash q).g_state) := by
    intro hOpen
    rw [hCrashState]
    simp [rcstate_notifyAppCrash, hEn2, saveState, hOpen]
  refine ⟨?_, ?_, ?_, ?_, ?_, ?_, hCrashFile, ?_, ?_⟩
  · rw [hSt]; exact CInt.ofInt_one_val
  · rw [hSt]; exact CInt.incr_zero_val
  · rw [hSt]; exact CInt.incr_zero_val
  · rw [hSt]
  · rw [hSt]; rfl
  · rw [hCrashState]
  · intro hOpen doc v hDoc hMem
    rw [hCrashFile hOpen, hCrashState] at hDoc
    injection hDoc with hDoc
    subst hDoc
    have hAll := List.mem_of_mem_take hMem
    simpa [encoderCalls, savedElements, kKeyFormatVersion, kKeyCrashedLastLaunch,
      kKeyActiveDurationSinceLastCrash, kKeyBackgroundDurationSinceLastCrash,
      kKeyLaunchesSinceLastCrash, kKeySessionsSinceLastCrash] using hAll
  · intro hOpen hCap
    refine ⟨_, hCrashFile hOpen, ?_, ?_, ?_⟩
    · rw [writtenDocument_of_capacity _ _ hCap]
    · rw [writtenDocument_of_capacity _ _ hCap, hCrashState]
      simp [encoderCalls, savedElements]
    · intro rNext hNext hRead
      rw [writtenDocument_of_capacity _ _ hCap] at hNext
      rw [ rcstate_initialize, loadState_encoderCalls eNext rNext _ hNext hRead, hCrashState]
      simp [mergePersisted]

/-- Witness of C1: the sample recorder, loaded at 0, enabled at 1, one notification at 5,
crash at 9. -/
theorem C1_first_launch_then_crash_witness :
    (firstLaunch (sampleEnv 0 8) (sampleEnv 0 8) (sampleEnv 1 8)
        sampleRecorder).g_state.launchesSinceLastCrash.val = 1
    ∧ (rcstate_notifyAppCrash (sampleEnv 9 8)
        (notifyAll (firstLaunch (sampleEnv 0 8) (sampleEnv 0 8) (sampleEnv 1 8) sampleRecorder)
          [(sampleEnv 5 8, Notification.appActive false)])).g_state.crashedThisLaunch = true :=
  ⟨(C1_first_launch_then_crash sampleRecorder (sampleEnv 0 8) (sampleEnv 0 8) (sampleEnv 1 8)
      (sampleEnv 9 8) (sampleEnv 10 8) [(sampleEnv 5 8, Notification.appActive false)]
      rfl rfl).2.1,
   (C1_first_launch_then_crash sampleRecorder (sampleEnv 0 8) (sampleEnv 0 8) (sampleEnv 1 8)
      (sampleEnv 9 8) (sampleEnv 10 8) [(sampleEnv 5 8, Notification.appActive false)]
      rfl rfl).2.2.2.2.2.1⟩

/-- C3 (idempotent enable).  `set_enabled(true)` on an enabled monitor changes nothing: the
record, the flag, the file and the count of saves are as before.  Hence from a disabled
monitor two `set_enabled(true)` calls in a row end in the recorder that a single call
produces, which is the one `reset()` produces once the flag is set, with exactly one save;
both since-last-crash counters went through one `++` from their value at reset time (`0`
if the previous launch crashed). -/
theorem C3_idempotent_enable [Zero D] (e1 e2 : Env D) (r : Recorder D) :
    (r.g_isEnabled = true → setEnabled e1 true r = r)
    ∧ (r.g_isEnabled = false →
        setEnabled e2 true (setEnabled e1 true r) = setEnabled e1 true r
        ∧ setEnabled e1 true r = (rcstate_reset e1 { r with g_isEnabled := true }).1
        ∧ (setEnabled e2 true (setEnabled e1 true r)).saveCalls = r.saveCalls + 1
        ∧ (setEnabled e2 true (setEnabled e1 true r)).g_state.launchesSinceLastCrash
            = (if r.g_state.crashedLastLaunch then CInt.ofInt 0
                else r.g_state.launchesSinceLastCrash).incr
        ∧ (setEnabled e2 true (setEnabled e1 true r)).g_state.sessionsSinceLastCrash
            = (if r.g_state.crashedLastLaunch then CInt.ofInt 0
                else r.g_state.sessionsSinceLastCrash).incr) := by
  constructor
  · intro h
    simp [setEnabled, h]
  · intro h
    have hOnce : setEnabled e1 true r = (rcstate_reset e1 { r with g_isEnabled := true }).1 := by
      simp [setEnabled, h]
    have hEn : (setEnabled e1 true r).g_isEnabled = true := by
      rw [hOnce]
      simp [rcstate_reset, saveState_g_isEnabled]
    have hTwice : setEnabled e2 true (setEnabled e1 true r) = setEnabled e1 true r := by
      generalize setEnabled e1 true r = q at hEn
      simp [setEnabled, hEn]
    refine ⟨hTwice, hOnce, ?_, ?_, ?_⟩
    · rw [hTwice, hOnce]
      simp [rcstate_reset, saveState_saveCalls]
    · rw [hTwice, hOnce]
      cases hc : r.g_state.crashedLastLaunch <;>
        simp [rcstate_reset, saveState_g_state, hc]
    · rw [hTwice, hOnce]
      cases hc : r.g_state.crashedLastLaunch <;>
        simp [rcstate_reset, saveState_g_state, hc]

/-- Witness of C3: the sample recorder, enabled or not. -/
theorem C3_idempotent_enable_witness :
    setEnabled (sampleEnv 1 8) true sampleEnabled = sampleEnabled
    ∧ setEnabled (sampleEnv 2 8) true (setEnabled (sampleEnv 1 8) true sampleRecorder)
        = setEnabled (sampleEnv 1 8) true sampleRecorder :=
  ⟨(C3_idempotent_enable (sampleEnv 1 8) (sampleEnv 2 8) sampleEnabled).1 rfl,
   ((C3_idempotent_enable (sampleEnv 1 8) (sampleEnv 2 8) sampleRecorder).2 rfl).1⟩

end RecorderClaims

/-! ## Claims on the persisted format -/

section CodecClaims

variable {D : Type}

/-- C4, as stated, fails: the sample record has `crashedLastLaunch = true` and
`crashedThisLaunch = false`; the document `saveState` writes for it loads without error
into a zeroed record, and the loaded `crashedLastLaunch` is `false`. -/
theorem C4_roundtrip_counterexample :
    (rcjson_decode (writtenDocument 8 sampleRecorder.g_state)
        (zeroedState : RollbarCrash_AppState Int)).1 = JSONResult.OK
    ∧ (rcjson_decode (writtenDocument 8 sampleRecorder.g_state)
        (zeroedState : RollbarCrash_AppState Int)).2.crashedLastLaunch = false
    ∧ sampleRecorder.g_state.crashedLastLaunch = true := by
  decide

/-- C4, amended (round trip).  For every record, the elements `saveState` emits are accepted
by the load callbacks, and decoding them into a zeroed record gives: `crashedLastLaunch`
equal to the `crashedThisLaunch` of the encoded record, both since-last-crash durations and
both since-last-crash counters equal to those of the encoded record, and every other field
still zero.  The same holds through `loadState` for a recorder holding a zeroed record and
the written file. -/
theorem C4_roundtrip [Zero D] [IntCast D] (source : RollbarCrash_AppState D) (e : Env D)
    (r : Recorder D) :
    (rcjson_decode { elements := encoderCalls source, complete := true } zeroedState).1
      = JSONResult.OK
    ∧ (rcjson_decode { elements := encoderCalls source, complete := true }
        zeroedState).2.crashedLastLaunch = source.crashedThisLaunch
    ∧ (rcjson_decode { elements := encoderCalls source, complete := true }
        zeroedState).2.activeDurationSinceLastCrash = source.activeDurationSinceLastCrash
    ∧ (rcjson_decode { elements := encoderCalls source, complete := true }
        zeroedState).2.backgroundDurationSinceLastCrash
        = source.backgroundDurationSinceLastCrash
    ∧ (rcjson_decode { elements := encoderCalls source, complete := true }
        zeroedState).2.launchesSinceLastCrash = source.launchesSinceLastCrash
    ∧ (rcjson_decode { elements := encoderCalls source, complete := true }
        zeroedState).2.sessionsSinceLastCrash = source.sessionsSinceLastCrash
    ∧ (rcjson_decode { elements := encoderCalls source, complete := true } zeroedState).2
        = mergePersisted source zeroedState
    ∧ decodeElements (savedElements source) zeroedState
        = (JSONResult.OK, mergePersisted source zeroedState)
    ∧ loadState { e with readOK := true }
        { r with g_state := zeroedState
                 file := some (writtenDocument 8 source) }
        = ({ r with g_state := mergePersisted source zeroedState
                    file := some (writtenDocument 8 source) }, true) := by
  have hDec : rcjson_decode { elements := encoderCalls source, complete := true }
      (zeroedState : RollbarCrash_AppState D)
      = (JSONResult.OK, mergePersisted source zeroedState) := by
    simp [rcjson_decode, decodeElements_encoderCalls, onEndData]
  have hSaved : decodeElements (savedElements source) (zeroedState : RollbarCrash_AppState D)
      = (JSONResult.OK, mergePersisted source zeroedState) := by
    have h := decodeElements_encoderCalls source (zeroedState : RollbarCrash_AppState D)
    rw [encoderCalls, decodeElements_append] at h
    rcases hd : decodeElements (savedElements source) (zeroedState : RollbarCrash_AppState D)
      with ⟨res, st⟩
    rw [hd] at h
    cases res <;> simp [decodeElements, callbacks, onEndContainer] at h
    rw [h]
  rw [hDec]
  refine ⟨rfl, rfl, rfl, rfl, rfl, rfl, rfl, hSaved, ?_⟩
  rw [writtenDocument_of_capacity 8 source (le_refl 8)]
  rw [loadState_encoderCalls _ _ source rfl rfl]

/-- C5 (version gate).  For every record and every file whose first keyed element is the
integer `version` with a value other than 1: the integer callback returns the invalid-data
error there, decoding stops with that error, `loadState` returns false, and the recorder,
its record included, is what it was before the attempt. -/
theorem C5_version_gate [IntCast D] (e : Env D) (r : Recorder D) (doc : Document D)
    (before after : List (Element D)) (version : Int)
    (hFile : r.file = some doc)
    (hElements : doc.elements
      = before ++ Element.integerElement kKeyFormatVersion version :: after)
    (hFirst : ∀ x ∈ before, x.key = none)
    (hVersion : version ≠ 1) :
    onIntegerElement kKeyFormatVersion version r.g_state
      = (JSONResult.ERROR_INVALID_DATA, r.g_state)
    ∧ rcjson_decode doc r.g_state = (JSONResult.ERROR_INVALID_DATA, r.g_state)
    ∧ loadState e r = (r, false) := by
  have hCb : onIntegerElement kKeyFormatVersion version r.g_state
      = (JSONResult.ERROR_INVALID_DATA, r.g_state) := by
    simp [onIntegerElement, kFormatVersion, hVersion]
  have hBefore : decodeElements before r.g_state = (JSONResult.OK, r.g_state) := by
    apply decodeElements_of_unrecognized
    intro x hx k hk
    rw [hFirst x hx] at hk
    cases hk
  have hDec : rcjson_decode doc r.g_state = (JSONResult.ERROR_INVALID_DATA, r.g_state) := by
    simp [rcjson_decode, hElements, decodeElements_append, hBefore, decodeElements_cons,
      callbacks, hCb]
  refine ⟨hCb, hDec, ?_⟩
  cases hr : e.readOK
  · simp [loadState, hFile, hr]
  · simp [loadState, hFile, hr, hDec]
    rw [← hFile]

/-- Witness of C5: the sample recorder with a version-2 file. -/
theorem C5_version_gate_witness :
    loadState (sampleEnv 0 8) { sampleRecorder with file := some sampleVersion2 }
      = ({ sampleRecorder with file := some sampleVersion2 }, false) :=
  (C5_version_gate (sampleEnv 0 8) { sampleRecorder with file := some sampleVersion2 }
    sampleVersion2 [Element.beginObject none]
    [ Element.booleanElement kKeyCrashedLastLaunch false,
      Element.integerElement kKeyLaunchesSinceLastCrash 9,
      Element.endContainer ]
    2 rfl rfl (by decide) (by decide)).2.2

/-- C6 (unknown-key tolerance).  For every record and every element of any kind and value
whose key is none of the six persisted key names (or that has no key), the load callback
returns OK and leaves the record unchanged.  So inserting such an element anywhere in any
element sequence changes neither the status nor the decoded record; in particular the
elements `saveState` emits for a record, with one such element inserted anywhere, decode
successfully to the same record as without it. -/
theorem C6_unknown_key_tolerance [IntCast D] (x : Element D) (hx : x.unrecognized)
    (state : RollbarCrash_AppState D) (xs ys : List (Element D)) (complete : Bool)
    (source : RollbarCrash_AppState D) (hSplit : encoderCalls source = xs ++ ys) :
    callbacks x state = (JSONResult.OK, state)
    ∧ (∀ us vs : List (Element D),
        decodeElements (us ++ x :: vs) state = decodeElements (us ++ vs) state
        ∧ rcjson_decode { elements := us ++ x :: vs, complete := complete } state
          = rcjson_decode { elements := us ++ vs, complete := complete } state)
    ∧ rcjson_decode { elements := xs ++ x :: ys, complete := true } state
        = (JSONResult.OK, mergePersisted source state)
    ∧ rcjson_decode { elements := xs ++ x :: ys, complete := true } state
        = rcjson_decode { elements := encoderCalls source, complete := true } state := by
  have hIns : ∀ us vs : List (Element D),
      decodeElements (us ++ x :: vs) state = decodeElements (us ++ vs) state :=
    fun us vs => decodeElements_insert_unrecognized x us vs state hx
  have hDoc : ∀ us vs : List (Element D),
      rcjson_decode { elements := us ++ x :: vs, complete := complete } state
        = rcjson_decode { elements := us ++ vs, complete := complete } state := by
    intro us vs
    simp only [rcjson_decode, hIns us vs]
  have hGood : rcjson_decode { elements := encoderCalls source, complete := true } state
      = (JSONResult.OK, mergePersisted source state) := by
    simp [rcjson_decode, decodeElements_encoderCalls, onEndData]
  have hSame : rcjson_decode { elements := xs ++ x :: ys, complete := true } state
      = rcjson_decode { elements := encoderCalls source, complete := true } state := by
    simp only [rcjson_decode, hIns xs ys, hSplit]
  refine ⟨callbacks_of_unrecognized x state hx, fun us vs => ⟨hIns us vs, hDoc us vs⟩, ?_, hSame⟩
  rw [hSame, hGood]

/-- Witness of C6: an element with the unused key `sessionsSinceLaunch`, inserted after
the first two elements of the sample record's file. -/
theorem C6_unknown_key_tolerance_witness :
    rcjson_decode
      { elements :=
          (encoderCalls sampleRecorder.g_state).take 2
            ++ sampleExtraElement :: (encoderCalls sampleRecorder.g_state).drop 2
        complete := true }
      (zeroedState : RollbarCrash_AppState Int)
    = (JSONResult.OK, mergePersisted sampleRecorder.g_state zeroedState) :=
  (C6_unknown_key_tolerance sampleExtraElement (by decide)
    (zeroedState : RollbarCrash_AppState Int)
    ((encoderCalls sampleRecorder.g_state).take 2)
    ((encoderCalls sampleRecorder.g_state).drop 2)
    true sampleRecorder.g_state rfl).2.2.1

end CodecClaims

/-! ## Claims on the accounting of time -/

section DurationLemmas

variable {D : Type}

theorem notifyAll_append [Zero D] [Add D] [Sub D] (r : Recorder D)
    (xs ys : List (Env D × Notification)) :
    notifyAll r (xs ++ ys) = notifyAll (notifyAll r xs) ys := by
  simp [notifyAll, List.foldl_append]

theorem conserved_of_load [AddCommGroup D] (eLoad : Env D) (r : Recorder D) :
    Conserved eLoad.now 0 (rcstate_notifyObjCLoad eLoad r).g_state := by
  simp [Conserved, rcstate_notifyObjCLoad, sinceLaunchTotal, zeroedState]

theorem conserved_of_load_enable [AddCommGroup D] (eLoad eEnable : Env D) (r : Recorder D) :
    Conserved eLoad.now 0
      (setEnabled eEnable true (rcstate_notifyObjCLoad eLoad r)).g_state := by
  cases h : r.g_isEnabled
  · simp [Conserved, setEnabled, rcstate_reset, saveState_g_state, rcstate_notifyObjCLoad,
      sinceLaunchTotal, zeroedState, h]
  · simp [Conserved, setEnabled, rcstate_notifyObjCLoad, sinceLaunchTotal, zeroedState, h]

/-- The since-launch total after `updateAppState`, from a state that is active or in the
background: the elapsed time up to the first clock read is added. -/
theorem sinceLaunchTotal_updateAppState [AddCommGroup D] (e : Env D)
    (state : RollbarCrash_AppState D)
    (hFlags : state.applicationIsActive = true ∨ state.applicationIsInForeground = false) :
    sinceLaunchTotal (updateAppState e state)
      = sinceLaunchTotal state + (e.now - state.appStateTransitionTime) := by
  cases hA : state.applicationIsActive
  · have hF : state.applicationIsInForeground = false := by
      rcases hFlags with h | h
      · rw [hA] at h; cases h
      · exact h
    simp only [updateAppState, timeSince_eq, getCurrentTime_eq, hA, hF, sinceLaunchTotal,
      Bool.false_eq_true, if_false, Bool.not_false, if_true]
    abel
  · simp only [updateAppState, timeSince_eq, getCurrentTime_eq, hA, sinceLaunchTotal, if_true]
    abel

theorem updateAppState_time [Add D] [Sub D] (e : Env D) (state : RollbarCrash_AppState D) :
    (updateAppState e state).appStateTransitionTime = e.later := by
  cases hA : state.applicationIsActive <;> cases hF : state.applicationIsInForeground <;>
    simp [updateAppState, hA, hF]

theorem updateAppState_flags [Add D] [Sub D] (e : Env D) (state : RollbarCrash_AppState D) :
    (updateAppState e state).applicationIsActive = state.applicationIsActive
    ∧ (updateAppState e state).applicationIsInForeground
        = state.applicationIsInForeground := by
  cases hA : state.applicationIsActive <;> cases hF : state.applicationIsInForeground <;>
    simp [updateAppState, hA, hF]

theorem conserved_phase [AddCommGroup D] (t0 lost : D) (r : Recorder D)
    (p : LifecyclePhase D) (hEnabled : r.g_isEnabled = true)
    (hr : Conserved t0 lost r.g_state) :
    Conserved t0 (lost + p.gap r.g_state.appStateTransitionTime)
        (notifyAll r p.events).g_state
    ∧ (notifyAll r p.events).g_state.appStateTransitionTime = p.stampAfter := by
  obtain ⟨hFlags, hTotal⟩ := hr
  have hStamp : r.g_state.appStateTransitionTime
      = sinceLaunchTotal r.g_state + t0 + lost := by
    rw [hTotal]; abel
  cases p with
  | pair leave leaving enter entering =>
    have hState : (notifyAll r
        (LifecyclePhase.pair leave leaving enter entering).events).g_state
        = (notify (notify r (leave, leaving.notification))
            (enter, entering.notification)).g_state := rfl
    rw [hState]
    cases leaving <;> cases entering <;> refine ⟨⟨?_, ?_⟩, ?_⟩
    all_goals
      first
      | (simp [notify, Accumulating.notification, Stamping.notification,
          rcstate_notifyAppActive, rcstate_notifyAppInForeground, hEnabled,
          saveState_g_state, LifecyclePhase.stampAfter]; done)
      | (simp only [notify, Accumulating.notification, Stamping.notification,
          rcstate_notifyAppActive, rcstate_notifyAppInForeground, hEnabled,
          saveState_g_state, timeSince_eq, getCurrentTime_eq, sinceLaunchTotal,
          LifecyclePhase.gap, if_true, Bool.false_eq_true, if_false]
         rw [hStamp]
         simp only [sinceLaunchTotal]
         abel)
  | single enter entering =>
    have hState : (notifyAll r (LifecyclePhase.single enter entering).events).g_state
        = (notify r (enter, entering.notification)).g_state := rfl
    rw [hState]
    cases entering <;> refine ⟨⟨?_, ?_⟩, ?_⟩
    all_goals
      first
      | (simp [notify, Stamping.notification, rcstate_notifyAppActive,
          rcstate_notifyAppInForeground, hEnabled, saveState_g_state,
          LifecyclePhase.stampAfter]; done)
      | (simp only [notify, Stamping.notification, rcstate_notifyAppActive,
          rcstate_notifyAppInForeground, hEnabled, saveState_g_state, timeSince_eq,
          getCurrentTime_eq, sinceLaunchTotal, LifecyclePhase.gap, if_true,
          Bool.false_eq_true, if_false]
         rw [hStamp]
         simp only [sinceLaunchTotal]
         abel)
  | report e =>
    have hState : (notifyAll r (LifecyclePhase.report e).events).g_state
        = updateAppState e r.g_state := by
      simp [notifyAll, LifecyclePhase.events, notify, addContextualInfoToEvent, hEnabled]
    rw [hState]
    refine ⟨⟨?_, ?_⟩, updateAppState_time e r.g_state⟩
    · rw [(updateAppState_flags e r.g_state).1, (updateAppState_flags e r.g_state).2]
      exact hFlags
    · rw [sinceLaunchTotal_updateAppState e r.g_state hFlags, updateAppState_time, hTotal]
      simp only [LifecyclePhase.gap]
      abel

theorem conserved_lifecycle [AddCommGroup D] (t0 : D) (phases : List (LifecyclePhase D))
    (lost : D) (r : Recorder D) (hEnabled : r.g_isEnabled = true)
    (hr : Conserved t0 lost r.g_state) :
    Conserved t0 (lost + totalGap r.g_state.appStateTransitionTime phases)
      (notifyAll r (lifecycleEvents phases)).g_state := by
  induction phases generalizing r lost with
  | nil =>
    have h0 : lost + totalGap r.g_state.appStateTransitionTime
        ([] : List (LifecyclePhase D)) = lost := by
      simp [totalGap]
    rw [h0]
    exact hr
  | cons p ps ih =>
    show Conserved t0
      (lost + (p.gap r.g_state.appStateTransitionTime + totalGap p.stampAfter ps))
      (notifyAll r (p.events ++ lifecycleEvents ps)).g_state
    have hPhase := conserved_phase t0 lost r p hEnabled hr
    rw [notifyAll_append, ← add_assoc, ← hPhase.2]
    apply ih
    · rw [notifyAll_g_isEnabled, hEnabled]
    · exact hPhase.1

theorem total_of_reconcile [AddCommGroup D] (t0 lost : D) (r : Recorder D) (e : Env D)
    (final : Notification) (hEnabled : r.g_isEnabled = true)
    (hr : Conserved t0 lost r.g_state) (hFinal : final.reconciles = true) :
    sinceLaunchTotal (notify r (e, final)).g_state = e.now - t0 - lost := by
  have hUpd : sinceLaunchTotal (updateAppState e r.g_state) = e.now - t0 - lost := by
    rw [sinceLaunchTotal_updateAppState e r.g_state hr.1, hr.2]
    abel
  cases final with
  | appActive b => cases hFinal
  | appInForeground b => cases hFinal
  | appTerminate =>
    simpa [notify, rcstate_notifyAppTerminate, hEnabled, saveState_g_state] using hUpd
  | appCrash =>
    simpa [notify, rcstate_notifyAppCrash, hEnabled, saveState_g_state, sinceLaunchTotal]
      using hUpd
  | contextualInfo =>
    simpa [notify, addContextualInfoToEvent, hEnabled] using hUpd

end DurationLemmas

section DurationClaims

variable {D : Type}

/-- C7, as stated, fails: module load at 0 and `set_enabled(true)`, `notify_active(false)`
at 5, `notify_foreground(false)` at 7, `notify_terminate()` at 10.  The clock never goes
back, ten seconds have passed since the module-load notification, and the two since-launch
durations add up to 8: the two seconds in the foreground but inactive are counted
nowhere. -/
theorem C7_duration_conservation_counterexample :
    sinceLaunchTotal
        (notifyAll (setEnabled (sampleEnv 0 8) true
          (rcstate_notifyObjCLoad (sampleEnv 0 8) sampleRecorder)) sampleDay).g_state = 8
    ∧ sinceLaunchTotal
        (notifyAll (setEnabled (sampleEnv 0 8) true
          (rcstate_notifyObjCLoad (sampleEnv 0 8) sampleRecorder)) sampleDay).g_state
      ≠ (sampleEnv 10 8).now - (sampleEnv 0 8).now := by
  decide

/-- C7, amended (duration conservation).  Durations are exact numbers (an additive
commutative group).  After the module-load notification at `eLoad.now`, with the monitor
enabled at that moment or by a following `set_enabled(true)`, run any sequence of
`notify_active`, `notify_foreground` and `contribute_context` calls, at any clock values,
in which every notification that accumulates (`notify_active(false)`,
`notify_foreground(true)`) is directly followed by one that stamps (`notify_active(true)`,
`notify_foreground(false)`).  After a final `notify_terminate`, `notify_crash` or
`contribute_context` whose first clock read is `eEnd.now`,
`activeDurationSinceLaunch + backgroundDurationSinceLaunch` is `eEnd.now - eLoad.now` less
the gaps of the steps: the time between an accumulating notification and the stamping one
that follows it, the time between the previous time stamp and a notification that stamps
on its own, and the time between the two clock reads of a `contribute_context` call.  So
the sum is the elapsed time exactly when those gaps add up to zero. -/
theorem C7_duration_conservation [AddCommGroup D] (r0 : Recorder D) (eLoad eEnable eEnd : Env D)
    (phases : List (LifecyclePhase D)) (final : Notification)
    (hFinal : final.reconciles = true) :
    (sinceLaunchTotal
        (notify (notifyAll (setEnabled eEnable true (rcstate_notifyObjCLoad eLoad r0))
          (lifecycleEvents phases)) (eEnd, final)).g_state
      = eEnd.now - eLoad.now - totalGap eLoad.now phases)
    ∧ (r0.g_isEnabled = true →
        sinceLaunchTotal
          (notify (notifyAll (rcstate_notifyObjCLoad eLoad r0) (lifecycleEvents phases))
            (eEnd, final)).g_state
        = eEnd.now - eLoad.now - totalGap eLoad.now phases)
    ∧ (sinceLaunchTotal
        (notify (notifyAll (setEnabled eEnable true (rcstate_notifyObjCLoad eLoad r0))
          (lifecycleEvents phases)) (eEnd, final)).g_state
        = eEnd.now - eLoad.now ↔ totalGap eLoad.now phases = 0) := by
  have hEnabled : (setEnabled eEnable true (rcstate_notifyObjCLoad eLoad r0)).g_isEnabled
      = true := by
    cases h : r0.g_isEnabled <;>
      simp [setEnabled, rcstate_notifyObjCLoad, rcstate_reset, saveState_g_isEnabled, h]
  have hTime : (setEnabled eEnable true
      (rcstate_notifyObjCLoad eLoad r0)).g_state.appStateTransitionTime = eLoad.now := by
    cases h : r0.g_isEnabled <;>
      simp [setEnabled, rcstate_notifyObjCLoad, rcstate_reset, saveState_g_state,
        zeroedState, h]
  have hTime0 : (rcstate_notifyObjCLoad eLoad r0).g_state.appStateTransitionTime
      = eLoad.now := by
    simp [rcstate_notifyObjCLoad]
  have hMain : sinceLaunchTotal
      (notify (notifyAll (setEnabled eEnable true (rcstate_notifyObjCLoad eLoad r0))
        (lifecycleEvents phases)) (eEnd, final)).g_state
      = eEnd.now - eLoad.now - totalGap eLoad.now phases := by
    have hC := conserved_lifecycle eLoad.now phases 0 _ hEnabled
      (conserved_of_load_enable eLoad eEnable r0)
    rw [hTime, zero_add] at hC
    exact total_of_reconcile eLoad.now (totalGap eLoad.now phases)
      (notifyAll (setEnabled eEnable true (rcstate_notifyObjCLoad eLoad r0))
        (lifecycleEvents phases)) eEnd final
      (by rw [notifyAll_g_isEnabled, hEnabled]) hC hFinal
  refine ⟨hMain, ?_, ?_⟩
  · intro h0
    have hEnabled0 : (rcstate_notifyObjCLoad eLoad r0).g_isEnabled = true := h0
    have hC := conserved_lifecycle eLoad.now phases 0 _ hEnabled0 (conserved_of_load eLoad r0)
    rw [hTime0, zero_add] at hC
    exact total_of_reconcile eLoad.now (totalGap eLoad.now phases)
      (notifyAll (rcstate_notifyObjCLoad eLoad r0) (lifecycleEvents phases)) eEnd final
      (by rw [notifyAll_g_isEnabled, hEnabled0]) hC hFinal
  · rw [hMain]
    constructor
    · intro h
      have h2 : eEnd.now - eLoad.now - totalGap eLoad.now phases + totalGap eLoad.now phases
          = eEnd.now - eLoad.now + totalGap eLoad.now phases := by rw [h]
      rw [sub_add_cancel] at h2
      exact (self_eq_add_right.mp h2)
    · intro h
      rw [h, sub_zero]

/-- Witness of C7: the sample recorder, loaded at 0 and enabled, through the sample life
cycle (gaps 3, 2, 0 and 1), crash at 12. -/
theorem C7_duration_conservation_witness :
    sinceLaunchTotal
        (notify (notifyAll (setEnabled (sampleEnv 0 8) true
            (rcstate_notifyObjCLoad (sampleEnv 0 8) sampleRecorder))
          (lifecycleEvents samplePhases)) (sampleEnv 12 8, Notification.appCrash)).g_state
      = (sampleEnv 12 8).now - (sampleEnv 0 8).now
        - totalGap (sampleEnv 0 8).now samplePhases :=
  (C7_duration_conservation sampleRecorder (sampleEnv 0 8) (sampleEnv 0 8) (sampleEnv 12 8)
    samplePhases Notification.appCrash rfl).1

end DurationClaims

/-! ## Claims on the since-last-crash fields -/

section MonotoneClaims

variable {D : Type}

/-- C8, as stated, fails: on the enabled sample recorder (all four since-last-crash fields
non-negative, five launches) the module-load notification at clock value 200, which is
later than `appStateTransitionTime = 100`, leaves `launchesSinceLastCrash = 0`, which is
smaller than before. -/
theorem C8_monotone_counterexample :
    0 ≤ sampleEnabled.g_state.activeDurationSinceLastCrash
    ∧ 0 ≤ sampleEnabled.g_state.backgroundDurationSinceLastCrash
    ∧ 0 ≤ sampleEnabled.g_state.launchesSinceLastCrash.val
    ∧ 0 ≤ sampleEnabled.g_state.sessionsSinceLastCrash.val
    ∧ sampleEnabled.g_state.appStateTransitionTime ≤ (sampleEnv 200 8).now
    ∧ (Operation.moduleLoad.run (sampleEnv 200 8) sampleEnabled).g_state.launchesSinceLastCrash.val
        < sampleEnabled.g_state.launchesSinceLastCrash.val := by
  decide

/-- C8, amended (crash-scoped fields).  Durations are exact ordered numbers.  Take a record
whose four since-last-crash fields are non-negative and whose two counters are below
`INT_MAX`, and any operation run with a clock value not earlier than
`appStateTransitionTime`.  After the operation each of the four fields is non-negative;
and unless the operation is the module-load notification (which zeroes the record) or
`reset()` taken with `crashedLastLaunch = true`, each of the four fields is not smaller
than before. -/
theorem C8_monotone [OrderedAddCommGroup D] (op : Operation) (e : Env D) (r : Recorder D)
    (hActive : 0 ≤ r.g_state.activeDurationSinceLastCrash)
    (hBackground : 0 ≤ r.g_state.backgroundDurationSinceLastCrash)
    (hLaunches : 0 ≤ r.g_state.launchesSinceLastCrash.val)
    (hSessions : 0 ≤ r.g_state.sessionsSinceLastCrash.val)
    (hLaunchesMax : r.g_state.launchesSinceLastCrash.val < 2147483647)
    (hSessionsMax : r.g_state.sessionsSinceLastCrash.val < 2147483647)
    (hClock : r.g_state.appStateTransitionTime ≤ e.now) :
    (0 ≤ (op.run e r).g_state.activeDurationSinceLastCrash
      ∧ 0 ≤ (op.run e r).g_state.backgroundDurationSinceLastCrash
      ∧ 0 ≤ (op.run e r).g_state.launchesSinceLastCrash.val
      ∧ 0 ≤ (op.run e r).g_state.sessionsSinceLastCrash.val)
    ∧ (op ≠ Operation.moduleLoad →
        (op = Operation.reset → r.g_state.crashedLastLaunch = false) →
        r.g_state.activeDurationSinceLastCrash
          ≤ (op.run e r).g_state.activeDurationSinceLastCrash
        ∧ r.g_state.backgroundDurationSinceLastCrash
          ≤ (op.run e r).g_state.backgroundDurationSinceLastCrash
        ∧ r.g_state.launchesSinceLastCrash.val
          ≤ (op.run e r).g_state.launchesSinceLastCrash.val
        ∧ r.g_state.sessionsSinceLastCrash.val
          ≤ (op.run e r).g_state.sessionsSinceLastCrash.val) := by
  have hd : 0 ≤ e.now - r.g_state.appStateTransitionTime := sub_nonneg.mpr hClock
  have hLi := CInt.incr_val _ hLaunchesMax
  have hSi := CInt.incr_val _ hSessionsMax
  have hA' := add_nonneg hActive hd
  have hB' := add_nonneg hBackground hd
  have hA'' : r.g_state.activeDurationSinceLastCrash
      ≤ r.g_state.activeDurationSinceLastCrash + (e.now - r.g_state.appStateTransitionTime) :=
    le_add_of_nonneg_right hd
  have hB'' : r.g_state.backgroundDurationSinceLastCrash
      ≤ r.g_state.backgroundDurationSinceLastCrash
        + (e.now - r.g_state.appStateTransitionTime) :=
    le_add_of_nonneg_right hd
  have hL1 : 0 ≤ r.g_state.launchesSinceLastCrash.incr.val := by omega
  have hS1 : 0 ≤ r.g_state.sessionsSinceLastCrash.incr.val := by omega
  have hL2 : r.g_state.launchesSinceLastCrash.val ≤ r.g_state.launchesSinceLastCrash.incr.val := by
    omega
  have hS2 : r.g_state.sessionsSinceLastCrash.val ≤ r.g_state.sessionsSinceLastCrash.incr.val := by
    omega
  have h01 : (0 : Int) ≤ (CInt.ofInt 0).incr.val := by decide
  have h00 : (0 : Int) ≤ (CInt.ofInt 0).val := by decide
  cases op with
  | moduleLoad =>
    refine ⟨?_, fun h => absurd rfl h⟩
    simp [Operation.run, rcstate_notifyObjCLoad, zeroedState, h00]
  | reset =>
    cases hEn : r.g_isEnabled <;> cases hc : r.g_state.crashedLastLaunch <;>
      (simp [Operation.run, rcstate_reset, hEn, hc, saveState_g_state, *]; all_goals omega)
  | notification n =>
    cases hEn : r.g_isEnabled <;> cases hAct : r.g_state.applicationIsActive <;>
      cases hFg : r.g_state.applicationIsInForeground <;>
      cases n with
      | appActive b =>
        cases b <;>
          simp [Operation.run, notify, rcstate_notifyAppActive, hEn, hAct, hFg, *]
      | appInForeground b =>
        cases b <;>
          simp [Operation.run, notify, rcstate_notifyAppInForeground, saveState_g_state,
            hEn, hAct, hFg, *] <;> omega
      | appTerminate =>
        simp [Operation.run, notify, rcstate_notifyAppTerminate, updateAppState,
          saveState_g_state, hEn, hAct, hFg, *]
      | appCrash =>
        simp [Operation.run, notify, rcstate_notifyAppCrash, updateAppState,
          saveState_g_state, hEn, hAct, hFg, *]
      | contextualInfo =>
        simp [Operation.run, notify, addContextualInfoToEvent, updateAppState,
          hEn, hAct, hFg, *]

/-- Witness of C8: the enabled sample recorder, `notify_foreground(true)` at 200. -/
theorem C8_monotone_witness :
    sampleEnabled.g_state.sessionsSinceLastCrash.val
      ≤ ((Operation.notification (Notification.appInForeground true)).run (sampleEnv 200 8)
          sampleEnabled).g_state.sessionsSinceLastCrash.val :=
  ((C8_monotone (Operation.notification (Notification.appInForeground true)) (sampleEnv 200 8)
      sampleEnabled (by decide) (by decide) (by decide) (by decide) (by decide) (by decide)
      (by decide)).2 (by decide) (by decide)).2.2.2

/-- C9, as stated, fails: right after the module-load notification at 0 the enabled sample
recorder has `applicationIsActive = true`; `notify_foreground(true)` at 5 adds 5 to both
background durations, and `applicationIsActive` is true before and after the call. -/
theorem C9_exclusivity_counterexample :
    (rcstate_notifyObjCLoad (sampleEnv 0 8) sampleEnabled).g_state.applicationIsActive = true
    ∧ (rcstate_notifyAppInForeground (sampleEnv 5 8) true
        (rcstate_notifyObjCLoad (sampleEnv 0 8) sampleEnabled)).g_state.applicationIsActive
        = true
    ∧ (rcstate_notifyObjCLoad (sampleEnv 0 8) sampleEnabled).g_state.backgroundDurationSinceLaunch
        = 0
    ∧ (rcstate_notifyAppInForeground (sampleEnv 5 8) true
        (rcstate_notifyObjCLoad (sampleEnv 0 8)
          sampleEnabled)).g_state.backgroundDurationSinceLaunch = 5
    ∧ (rcstate_notifyAppInForeground (sampleEnv 5 8) true
        (rcstate_notifyObjCLoad (sampleEnv 0 8)
          sampleEnabled)).g_state.backgroundDurationSinceLastCrash = 5 := by
  decide

/-- C9, amended (accumulation exclusivity).  For every record and every notification
(`notify_active`, `notify_foreground`, `notify_terminate`, `notify_crash`,
`contribute_context`), with `d = now - appStateTransitionTime`: at most one of the active
pair and the background pair is changed.  The active pair is either unchanged or increased
by `d`, the latter only by `notify_active(false)` or by a reconciliation taken while
`applicationIsActive`.  The background pair is either unchanged or increased by `d`, the
latter only by `notify_foreground(true)` or by a reconciliation taken while not active and
not in the foreground.  A reconciliation taken in the foreground but inactive changes
neither pair. -/
theorem C9_exclusivity [Zero D] [Add D] [Sub D] (n : Notification) (e : Env D)
    (r : Recorder D) :
    (activePairUnchanged r.g_state (notify r (e, n)).g_state
      ∨ backgroundPairUnchanged r.g_state (notify r (e, n)).g_state)
    ∧ (activePairUnchanged r.g_state (notify r (e, n)).g_state
      ∨ (activePairAdded (e.now - r.g_state.appStateTransitionTime) r.g_state
            (notify r (e, n)).g_state
          ∧ r.g_isEnabled = true
          ∧ (n = Notification.appActive false
            ∨ (n.reconciles = true ∧ r.g_state.applicationIsActive = true))))
    ∧ (backgroundPairUnchanged r.g_state (notify r (e, n)).g_state
      ∨ (backgroundPairAdded (e.now - r.g_state.appStateTransitionTime) r.g_state
            (notify r (e, n)).g_state
          ∧ r.g_isEnabled = true
          ∧ (n = Notification.appInForeground true
            ∨ (n.reconciles = true ∧ r.g_state.applicationIsActive = false
                ∧ r.g_state.applicationIsInForeground = false))))
    ∧ (n.reconciles = true → r.g_state.applicationIsActive = false →
        r.g_state.applicationIsInForeground = true →
        activePairUnchanged r.g_state (notify r (e, n)).g_state
        ∧ backgroundPairUnchanged r.g_state (notify r (e, n)).g_state) := by
  cases hEn : r.g_isEnabled <;> cases hAct : r.g_state.applicationIsActive <;>
    cases hFg : r.g_state.applicationIsInForeground <;>
    cases n with
    | appActive b =>
      cases b <;>
        simp [notify, rcstate_notifyAppActive, hEn, hAct, hFg, activePairUnchanged,
          activePairAdded, backgroundPairUnchanged, backgroundPairAdded,
          Notification.reconciles]
    | appInForeground b =>
      cases b <;>
        simp [notify, rcstate_notifyAppInForeground, saveState_g_state, hEn, hAct, hFg,
          activePairUnchanged, activePairAdded, backgroundPairUnchanged, backgroundPairAdded,
          Notification.reconciles]
    | appTerminate =>
      simp [notify, rcstate_notifyAppTerminate, updateAppState, saveState_g_state, hEn, hAct,
        hFg, activePairUnchanged, activePairAdded, backgroundPairUnchanged,
        backgroundPairAdded, Notification.reconciles]
    | appCrash =>
      simp [notify, rcstate_notifyAppCrash, updateAppState, saveState_g_state, hEn, hAct,
        hFg, activePairUnchanged, activePairAdded, backgroundPairUnchanged,
        backgroundPairAdded, Notification.reconciles]
    | contextualInfo =>
      simp [notify, addContextualInfoToEvent, updateAppState, hEn, hAct, hFg,
        activePairUnchanged, activePairAdded, backgroundPairUnchanged, backgroundPairAdded,
        Notification.reconciles]

end MonotoneClaims

/-! ## Claims on the register accessor -/

section RegisterClaims

/-- Indices at or above the table sizes are answered with the sentinel and without a read:
`register_value` gives 0 and `register_name` gives NULL from 17 on,
`exception_register_name` gives NULL from 3 on, and `exception_register_value` gives 0 for
every index outside 0..2, negative ones included. -/
theorem rccpu_sentinel_above_range (context : RollbarCrashMachineContext) (regNumber : Int) :
    (17 ≤ regNumber → rccpu_registerValue context regNumber = Except.ok 0
      ∧ rccpu_registerName regNumber = Except.ok none)
    ∧ (3 ≤ regNumber → rccpu_exceptionRegisterName regNumber = Except.ok none)
    ∧ (regNumber < 0 ∨ 2 < regNumber →
        rccpu_exceptionRegisterValue context regNumber = Except.ok 0) := by
  refine ⟨fun h => ⟨?_, ?_⟩, fun h => ?_, fun h => ?_⟩
  · have h1 : ¬ regNumber ≤ 12 := by omega
    have h2 : regNumber ≠ 13 := by omega
    have h3 : regNumber ≠ 14 := by omega
    have h4 : regNumber ≠ 15 := by omega
    have h5 : regNumber ≠ 16 := by omega
    simp [rccpu_registerValue, h1, h2, h3, h4, h5]
  · have h1 : ¬ regNumber < 17 := by omega
    simp [rccpu_registerName, rccpu_numRegisters, g_registerNamesCount, g_registerNames, h1]
  · have h1 : ¬ regNumber < 3 := by omega
    simp [rccpu_exceptionRegisterName, rccpu_numExceptionRegisters,
      g_exceptionRegisterNamesCount, g_exceptionRegisterNames, h1]
  · have h0 : regNumber ≠ 0 := by omega
    have h1 : regNumber ≠ 1 := by omega
    have h2 : regNumber ≠ 2 := by omega
    simp [rccpu_exceptionRegisterValue, h0, h1, h2]

/-- C10 at the failing input: for every snapshot, index -1 passes the upper-bound tests
`regNumber <= 12`, `regNumber < rccpu_numRegisters()` and
`regNumber < rccpu_numExceptionRegisters()`, so `register_value` reads `__r[-1]`,
`register_name` reads `g_registerNames[-1]` and `exception_register_name` reads
`g_exceptionRegisterNames[-1]`: each is a read outside the array, not the sentinel. -/
theorem C10_negative_index_reads_outside (context : RollbarCrashMachineContext) :
    rccpu_registerValue context (-1) = Except.error (Fault.outOfBounds "__r" (-1))
    ∧ rccpu_registerName (-1) = Except.error (Fault.outOfBounds "g_registerNames" (-1))
    ∧ rccpu_exceptionRegisterName (-1)
        = Except.error (Fault.outOfBounds "g_exceptionRegisterNames" (-1))
    ∧ rccpu_exceptionRegisterValue context (-1) = Except.ok 0 := by
  refine ⟨?_, ?_, ?_, ?_⟩
  · simp [rccpu_registerValue, readR]
  · simp [rccpu_registerName, rccpu_numRegisters, g_registerNamesCount, g_registerNames,
      readName]
  · simp [rccpu_exceptionRegisterName, rccpu_numExceptionRegisters,
      g_exceptionRegisterNamesCount, g_exceptionRegisterNames, readName]
  · simp [rccpu_exceptionRegisterValue]

theorem rccpu_registerValue_general (context : RollbarCrashMachineContext) (i : Fin 13) :
    rccpu_registerValue context (i.val : Int)
      = Except.ok (context.machineContext.__ss.__r i) := by
  have h12 : ((i.val : Nat) : Int) ≤ 12 := by have := i.isLt; omega
  have hR : (0 : Int) ≤ (i.val : Int) ∧ ((i.val : Nat) : Int) < 13 := by
    have := i.isLt; omega
  simp only [rccpu_registerValue, h12, if_true, readR, hR, and_self, dif_pos]
  rfl

theorem rccpu_registerValue_sample (v : Nat) (i : Int) (h : 0 ≤ i ∧ i < 17) :
    rccpu_registerValue (sampleContext v) i = Except.ok v := by
  by_cases h12 : i ≤ 12
  · have hR : 0 ≤ i ∧ i < 13 := by omega
    simp [rccpu_registerValue, h12, readR, hR, sampleContext]
  · have hCases : i = 13 ∨ i = 14 ∨ i = 15 ∨ i = 16 := by omega
    rcases hCases with rfl | rfl | rfl | rfl <;> simp [rccpu_registerValue, sampleContext]

/-- C11 (register index mapping, 32-bit ARM).  For every snapshot, `register_value` at
index `i` is the general register `r[i]` for `i` in 0..12, the stack pointer at 13, the
link register at 14, the program counter at 15 and `cpsr` at 16.  So `stack_pointer`,
`link_register`, `instruction_pointer` and `frame_pointer` are `register_value` at 13, 14,
15 and 7. -/
theorem C11_register_index_mapping (context : RollbarCrashMachineContext) :
    (∀ i : Fin 13,
      rccpu_registerValue context (i.val : Int)
        = Except.ok (context.machineContext.__ss.__r i))
    ∧ rccpu_registerValue context 13 = Except.ok context.machineContext.__ss.__sp
    ∧ rccpu_registerValue context 14 = Except.ok context.machineContext.__ss.__lr
    ∧ rccpu_registerValue context 15 = Except.ok context.machineContext.__ss.__pc
    ∧ rccpu_registerValue context 16 = Except.ok context.machineContext.__ss.__cpsr
    ∧ rccpu_registerValue context 13 = Except.ok (rccpu_stackPointer context)
    ∧ rccpu_registerValue context 14 = Except.ok (rccpu_linkRegister context)
    ∧ rccpu_registerValue context 15 = Except.ok (rccpu_instructionAddress context)
    ∧ rccpu_registerValue context 7 = Except.ok (rccpu_framePointer context) := by
  refine ⟨rccpu_registerValue_general context, ?_, ?_, ?_, ?_, ?_, ?_, ?_, ?_⟩
  · simp [rccpu_registerValue]
  · simp [rccpu_registerValue]
  · simp [rccpu_registerValue]
  · simp [rccpu_registerValue]
  · simp [rccpu_registerValue, rccpu_stackPointer]
  · simp [rccpu_registerValue, rccpu_linkRegister]
  · simp [rccpu_registerValue, rccpu_instructionAddress]
  · exact rccpu_registerValue_general context 7

theorem rccpu_registerValue_outside (context : RollbarCrashMachineContext) (i : Int)
    (h : ¬ (0 ≤ i ∧ i < 17)) :
    rccpu_registerValue context i
      = (if i < 0 then Except.error (Fault.outOfBounds "__r" i) else Except.ok 0) := by
  by_cases hNeg : i < 0
  · have h12 : i ≤ 12 := by omega
    have hR : ¬ (0 ≤ i ∧ i < 13) := by omega
    simp [rccpu_registerValue, h12, readR, hR, hNeg]
  · have h1 : ¬ i ≤ 12 := by omega
    have h2 : i ≠ 13 := by omega
    have h3 : i ≠ 14 := by omega
    have h4 : i ≠ 15 := by omega
    have h5 : i ≠ 16 := by omega
    simp [rccpu_registerValue, h1, h2, h3, h4, h5, hNeg]

theorem rccpu_exceptionRegisterValue_sample (v : Nat) (i : Int) (h : 0 ≤ i ∧ i < 3) :
    rccpu_exceptionRegisterValue (sampleContext v) i = Except.ok v := by
  have hCases : i = 0 ∨ i = 1 ∨ i = 2 := by omega
  rcases hCases with rfl | rfl | rfl <;> simp [rccpu_exceptionRegisterValue, sampleContext]

theorem rccpu_exceptionRegisterValue_outside (context : RollbarCrashMachineContext) (i : Int)
    (h : ¬ (0 ≤ i ∧ i < 3)) : rccpu_exceptionRegisterValue context i = Except.ok 0 := by
  have h0 : i ≠ 0 := by omega
  have h1 : i ≠ 1 := by omega
  have h2 : i ≠ 2 := by omega
  simp [rccpu_exceptionRegisterValue, h0, h1, h2]

theorem hasName_registerName (i : Int) : hasName rccpu_registerName i ↔ 0 ≤ i ∧ i < 17 := by
  constructor
  · rintro ⟨n, hn⟩
    by_contra hOut
    by_cases hNeg : i < 0
    · have hlt : i < 17 := by omega
      have h0 : ¬ 0 ≤ i := by omega
      simp [rccpu_registerName, rccpu_numRegisters, g_registerNamesCount, g_registerNames,
        readName, hlt, h0] at hn
    · have hge : ¬ i < 17 := by omega
      simp [rccpu_registerName, rccpu_numRegisters, g_registerNamesCount, g_registerNames,
        hge] at hn
  · rintro ⟨h0, h1⟩
    interval_cases i <;> exact ⟨_, rfl⟩

theorem hasName_exceptionRegisterName (i : Int) :
    hasName rccpu_exceptionRegisterName i ↔ 0 ≤ i ∧ i < 3 := by
  constructor
  · rintro ⟨n, hn⟩
    by_contra hOut
    by_cases hNeg : i < 0
    · have hlt : i < 3 := by omega
      have h0 : ¬ 0 ≤ i := by omega
      simp [rccpu_exceptionRegisterName, rccpu_numExceptionRegisters,
        g_exceptionRegisterNamesCount, g_exceptionRegisterNames, readName, hlt, h0] at hn
    · have hge : ¬ i < 3 := by omega
      simp [rccpu_exceptionRegisterName, rccpu_numExceptionRegisters,
        g_exceptionRegisterNamesCount, g_exceptionRegisterNames, hge] at hn
  · rintro ⟨h0, h1⟩
    interval_cases i <;> exact ⟨_, rfl⟩

theorem hasValueSource_registerValue (i : Int) :
    hasValueSource rccpu_registerValue i ↔ 0 ≤ i ∧ i < 17 := by
  constructor
  · rintro ⟨c1, c2, hne⟩
    by_contra hOut
    exact hne (by rw [rccpu_registerValue_outside c1 i hOut,
      rccpu_registerValue_outside c2 i hOut])
  · intro h
    refine ⟨sampleContext 0, sampleContext 1, ?_⟩
    rw [rccpu_registerValue_sample 0 i h, rccpu_registerValue_sample 1 i h]
    intro hEq
    cases hEq

theorem hasValueSource_exceptionRegisterValue (i : Int) :
    hasValueSource rccpu_exceptionRegisterValue i ↔ 0 ≤ i ∧ i < 3 := by
  constructor
  · rintro ⟨c1, c2, hne⟩
    by_contra hOut
    exact hne (by rw [rccpu_exceptionRegisterValue_outside c1 i hOut,
      rccpu_exceptionRegisterValue_outside c2 i hOut])
  · intro h
    refine ⟨sampleContext 0, sampleContext 1, ?_⟩
    rw [rccpu_exceptionRegisterValue_sample 0 i h, rccpu_exceptionRegisterValue_sample 1 i h]
    intro hEq
    cases hEq

/-- C12 (register name tables, 32-bit ARM).  `register_count()` is 17 and the names at
0..16 are r0 .. r11, ip, sp, lr, pc, cpsr in that order; `exception_register_count()` is 3
with the names exception, fsr, far in that order; for every snapshot the exception register
at index 2, named far, is the fault address.  An index has a name exactly when it lies in
`0 .. count - 1`, and exactly then the value read there depends on the snapshot: the name
table and the value mapping cover the same indices, for both register sets. -/
theorem C12_register_name_tables (context : RollbarCrashMachineContext) :
    rccpu_numRegisters = 17
    ∧ (List.range 17).map (fun i : Nat => rccpu_registerName (i : Int))
        = [ "r0", "r1", "r2", "r3", "r4", "r5", "r6", "r7", "r8", "r9", "r10", "r11",
            "ip", "sp", "lr", "pc", "cpsr" ].map (fun n => Except.ok (some n))
    ∧ rccpu_numExceptionRegisters = 3
    ∧ (List.range 3).map (fun i : Nat => rccpu_exceptionRegisterName (i : Int))
        = [ "exception", "fsr", "far" ].map (fun n => Except.ok (some n))
    ∧ rccpu_exceptionRegisterName 2 = Except.ok (some "far")
    ∧ rccpu_exceptionRegisterValue context 2 = Except.ok (rccpu_faultAddress context)
    ∧ (∀ i : Int, hasName rccpu_registerName i ↔ 0 ≤ i ∧ i < rccpu_numRegisters)
    ∧ (∀ i : Int, hasValueSource rccpu_registerValue i ↔ 0 ≤ i ∧ i < rccpu_numRegisters)
    ∧ (∀ i : Int,
        hasName rccpu_exceptionRegisterName i ↔ 0 ≤ i ∧ i < rccpu_numExceptionRegisters)
    ∧ (∀ i : Int,
        hasValueSource rccpu_exceptionRegisterValue i
          ↔ 0 ≤ i ∧ i < rccpu_numExceptionRegisters) := by
  have hCount : rccpu_numRegisters = 17 := rfl
  have hCountE : rccpu_numExceptionRegisters = 3 := rfl
  refine ⟨hCount, rfl, hCountE, rfl, rfl, ?_, ?_, ?_, ?_, ?_⟩
  · simp [rccpu_exceptionRegisterValue, rccpu_faultAddress]
  · intro i; rw [hCount]; exact hasName_registerName i
  · intro i; rw [hCount]; exact hasValueSource_registerValue i
  · intro i; rw [hCountE]; exact hasName_exceptionRegisterName i
  · intro i; rw [hCountE]; exact hasValueSource_exceptionRegisterValue i

end RegisterClaims

/-! ## Claims on the single operations -/

section OperationClaims

variable {D : Type}

/-- C13 (no-op unless enabled).  With the monitor disabled, for every record, clock value
and argument: `reset()` returns false and changes nothing; `notify_active`,
`notify_foreground`, `notify_terminate` and `notify_crash` return the recorder as it was
(record, flag, file and count of saves); `contribute_context` returns the recorder and the
report context as they were.  For every recorder, enabled or not, `set_enabled(false)`
only clears the flag: record, file and count of saves are as before. -/
theorem C13_noop_unless_enabled [Zero D] [Add D] [Sub D] (e : Env D) (r : Recorder D)
    (b : Bool) (eventContext : RollbarCrash_MonitorContext D) :
    (r.g_isEnabled = false →
      rcstate_reset e r = (r, false)
      ∧ rcstate_notifyAppActive e b r = r
      ∧ rcstate_notifyAppInForeground e b r = r
      ∧ rcstate_notifyAppTerminate e r = r
      ∧ rcstate_notifyAppCrash e r = r
      ∧ addContextualInfoToEvent e r eventContext = (r, eventContext))
    ∧ setEnabled e false r = { r with g_isEnabled := false }
    ∧ (setEnabled e false r).g_state = r.g_state
    ∧ (setEnabled e false r).file = r.file
    ∧ (setEnabled e false r).saveCalls = r.saveCalls := by
  have hSet : setEnabled e false r = { r with g_isEnabled := false } := by
    cases h : r.g_isEnabled
    · simp only [setEnabled, h, ne_eq, not_true_eq_false, if_false]
      rw [← h]
    · simp [setEnabled, h]
  refine ⟨fun h => ⟨?_, ?_, ?_, ?_, ?_, ?_⟩, hSet, ?_, ?_, ?_⟩
  · simp [rcstate_reset, h]
  · simp [rcstate_notifyAppActive, h]
  · simp [rcstate_notifyAppInForeground, h]
  · simp [rcstate_notifyAppTerminate, h]
  · simp [rcstate_notifyAppCrash, h]
  · simp [addContextualInfoToEvent, h]
  · rw [hSet]
  · rw [hSet]
  · rw [hSet]

/-- Witness of C13: the disabled sample recorder at clock value 200. -/
theorem C13_noop_unless_enabled_witness :
    rcstate_reset (sampleEnv 200 8) sampleRecorder = (sampleRecorder, false)
    ∧ rcstate_notifyAppCrash (sampleEnv 200 8) sampleRecorder = sampleRecorder
    ∧ addContextualInfoToEvent (sampleEnv 200 8) sampleRecorder sampleEventContext
        = (sampleRecorder, sampleEventContext) :=
  ⟨((C13_noop_unless_enabled (sampleEnv 200 8) sampleRecorder true sampleEventContext).1
      rfl).1,
   ((C13_noop_unless_enabled (sampleEnv 200 8) sampleRecorder true sampleEventContext).1
      rfl).2.2.2.2.1,
   ((C13_noop_unless_enabled (sampleEnv 200 8) sampleRecorder true sampleEventContext).1
      rfl).2.2.2.2.2⟩

/-- C14 (persisted content and order).  For every record, a save that succeeds leaves in
the file exactly one object whose elements are, in this order: integer `version = 1`,
boolean `crashedLastLaunch` holding this run's `crashedThisLaunch`, float
`activeDurationSinceLastCrash`, float `backgroundDurationSinceLastCrash`, integer
`launchesSinceLastCrash`, integer `sessionsSinceLastCrash`, each holding the record's
current field.  A save succeeds exactly when the file opens and the sink accepts all eight
encoder calls.  What is written depends on those five fields only, so no transient field
reaches the file, and `saveState` leaves the record and the flag as they were. -/
theorem C14_persisted_content (e : Env D) (r : Recorder D) :
    ((saveState e r).2 = true →
      (saveState e r).1.file
        = some
          { elements :=
              [ Element.beginObject none,
                Element.integerElement "version" 1,
                Element.booleanElement "crashedLastLaunch" r.g_state.crashedThisLaunch,
                Element.floatingPointElement "activeDurationSinceLastCrash"
                  r.g_state.activeDurationSinceLastCrash,
                Element.floatingPointElement "backgroundDurationSinceLastCrash"
                  r.g_state.backgroundDurationSinceLastCrash,
                Element.integerElement "launchesSinceLastCrash"
                  r.g_state.launchesSinceLastCrash.val,
                Element.integerElement "sessionsSinceLastCrash"
                  r.g_state.sessionsSinceLastCrash.val,
                Element.endContainer ]
            complete := true })
    ∧ ((saveState e r).2 = true ↔ (e.openOK = true ∧ 8 ≤ e.sinkCapacity))
    ∧ (∀ other : RollbarCrash_AppState D, samePersistedValues r.g_state other →
        (saveState e { r with g_state := other }).1.file = (saveState e r).1.file
        ∧ (saveState e { r with g_state := other }).2 = (saveState e r).2)
    ∧ (saveState e r).1.g_state = r.g_state
    ∧ (saveState e r).1.g_isEnabled = r.g_isEnabled := by
  have hLen : (encoderCalls r.g_state).length = 8 := encoderCalls_length r.g_state
  have hOk : (saveState e r).2 = true ↔ (e.openOK = true ∧ 8 ≤ e.sinkCapacity) := by
    cases ho : e.openOK <;> simp [saveState, ho, writtenDocument, hLen]
  refine ⟨?_, hOk, ?_, saveState_g_state e r, saveState_g_isEnabled e r⟩
  · intro h
    obtain ⟨ho, hc⟩ := hOk.mp h
    simp only [saveState, ho, if_true]
    rw [writtenDocument_of_capacity _ _ hc]
    rfl
  · intro other hSame
    obtain ⟨h1, h2, h3, h4, h5⟩ := hSame
    have hCalls : encoderCalls other = encoderCalls r.g_state := by
      simp [encoderCalls, savedElements, h1, h2, h3, h4, h5]
    cases ho : e.openOK <;> simp [saveState, ho, writtenDocument, hCalls]

/-- Witness of C14: the enabled sample recorder, a save that succeeds. -/
theorem C14_persisted_content_witness :
    (saveState (sampleEnv 200 8) sampleEnabled).1.file
      = some
        { elements :=
            [ Element.beginObject none,
              Element.integerElement "version" 1,
              Element.booleanElement "crashedLastLaunch" false,
              Element.floatingPointElement "activeDurationSinceLastCrash" 40,
              Element.floatingPointElement "backgroundDurationSinceLastCrash" 20,
              Element.integerElement "launchesSinceLastCrash" 5,
              Element.integerElement "sessionsSinceLastCrash" 7,
              Element.endContainer ]
          complete := true } :=
  (C14_persisted_content (sampleEnv 200 8) sampleEnabled).1 rfl

/-- C15, as stated, fails: on the enabled sample recorder, whose last transition was at
100, `notify_active(false)` at clock value 200 adds the 100 seconds to both active
durations and leaves `appStateTransitionTime` at 100, not at 200. -/
theorem C15_notify_active_counterexample :
    sampleEnabled.g_isEnabled = true
    ∧ (rcstate_notifyAppActive (sampleEnv 200 8) false
        sampleEnabled).g_state.activeDurationSinceLaunch = 4 + (200 - 100)
    ∧ (rcstate_notifyAppActive (sampleEnv 200 8) false
        sampleEnabled).g_state.appStateTransitionTime = 100
    ∧ (rcstate_notifyAppActive (sampleEnv 200 8) false
        sampleEnabled).g_state.appStateTransitionTime ≠ (sampleEnv 200 8).now := by
  decide

/-- C15, amended (`notify_active`).  With the monitor enabled and the clock value `now`:
`notify_active(true)` sets `applicationIsActive = true` and `appStateTransitionTime = now`
and changes nothing else, so no duration and no counter; `notify_active(false)` sets
`applicationIsActive = false`, adds `now - appStateTransitionTime` to both
`activeDurationSinceLaunch` and `activeDurationSinceLastCrash`, and changes nothing else:
`appStateTransitionTime` stays what it was.  Neither call persists anything. -/
theorem C15_notify_active [Add D] [Sub D] (e : Env D) (r : Recorder D)
    (hEnabled : r.g_isEnabled = true) :
    rcstate_notifyAppActive e true r
      = { r with g_state :=
          { r.g_state with
            applicationIsActive := true
            appStateTransitionTime := e.now } }
    ∧ rcstate_notifyAppActive e false r
      = { r with g_state :=
          { r.g_state with
            applicationIsActive := false
            activeDurationSinceLaunch :=
              r.g_state.activeDurationSinceLaunch + (e.now - r.g_state.appStateTransitionTime)
            activeDurationSinceLastCrash :=
              r.g_state.activeDurationSinceLastCrash
                + (e.now - r.g_state.appStateTransitionTime) } }
    ∧ (rcstate_notifyAppActive e false r).g_state.appStateTransitionTime
        = r.g_state.appStateTransitionTime
    ∧ (rcstate_notifyAppActive e true r).g_state.appStateTransitionTime = e.now := by
  refine ⟨?_, ?_, ?_, ?_⟩ <;> simp [rcstate_notifyAppActive, hEnabled]

/-- Witness of C15: the enabled sample recorder, `notify_active(false)` at 200. -/
theorem C15_notify_active_witness :
    (rcstate_notifyAppActive (sampleEnv 200 8) false sampleEnabled).g_state.appStateTransitionTime
      = sampleEnabled.g_state.appStateTransitionTime :=
  (C15_notify_active (sampleEnv 200 8) sampleEnabled rfl).2.2.1

/-- C18 (`contribute_context`).  With the monitor enabled, for every record and report
context: after the call each of the twelve AppState fields of the report context equals
the same field of the recorder's record as it stands after the call, which is the record
after the reconcile helper; the file and the count of saves are as before, so nothing is
persisted; and `is_enabled()` gives the same value as before the call.  `is_enabled()`
is the value of the flag and has no effect of its own. -/
theorem C18_contribute_context [Add D] [Sub D] (e : Env D) (r : Recorder D)
    (eventContext : RollbarCrash_MonitorContext D) (hEnabled : r.g_isEnabled = true) :
    (addContextualInfoToEvent e r eventContext).2.AppState.activeDurationSinceLastCrash
      = (addContextualInfoToEvent e r eventContext).1.g_state.activeDurationSinceLastCrash
    ∧ (addContextualInfoToEvent e r eventContext).2.AppState.activeDurationSinceLaunch
      = (addContextualInfoToEvent e r eventContext).1.g_state.activeDurationSinceLaunch
    ∧ (addContextualInfoToEvent e r eventContext).2.AppState.applicationIsActive
      = (addContextualInfoToEvent e r eventContext).1.g_state.applicationIsActive
    ∧ (addContextualInfoToEvent e r eventContext).2.AppState.applicationIsInForeground
      = (addContextualInfoToEvent e r eventContext).1.g_state.applicationIsInForeground
    ∧ (addContextualInfoToEvent e r eventContext).2.AppState.appStateTransitionTime
      = (addContextualInfoToEvent e r eventContext).1.g_state.appStateTransitionTime
    ∧ (addContextualInfoToEvent e r eventContext).2.AppState.backgroundDurationSinceLastCrash
      = (addContextualInfoToEvent e r eventContext).1.g_state.backgroundDurationSinceLastCrash
    ∧ (addContextualInfoToEvent e r eventContext).2.AppState.backgroundDurationSinceLaunch
      = (addContextualInfoToEvent e r eventContext).1.g_state.backgroundDurationSinceLaunch
    ∧ (addContextualInfoToEvent e r eventContext).2.AppState.crashedLastLaunch
      = (addContextualInfoToEvent e r eventContext).1.g_state.crashedLastLaunch
    ∧ (addContextualInfoToEvent e r eventContext).2.AppState.crashedThisLaunch
      = (addContextualInfoToEvent e r eventContext).1.g_state.crashedThisLaunch
    ∧ (addContextualInfoToEvent e r eventContext).2.AppState.launchesSinceLastCrash
      = (addContextualInfoToEvent e r eventContext).1.g_state.launchesSinceLastCrash
    ∧ (addContextualInfoToEvent e r eventContext).2.AppState.sessionsSinceLastCrash
      = (addContextualInfoToEvent e r eventContext).1.g_state.sessionsSinceLastCrash
    ∧ (addContextualInfoToEvent e r eventContext).2.AppState.sessionsSinceLaunch
      = (addContextualInfoToEvent e r eventContext).1.g_state.sessionsSinceLaunch
    ∧ (addContextualInfoToEvent e r eventContext).2.AppState
      = (addContextualInfoToEvent e r eventContext).1.g_state
    ∧ (addContextualInfoToEvent e r eventContext).1.g_state = updateAppState e r.g_state
    ∧ (addContextualInfoToEvent e r eventContext).1.file = r.file
    ∧ (addContextualInfoToEvent e r eventContext).1.saveCalls = r.saveCalls
    ∧ isEnabled (addContextualInfoToEvent e r eventContext).1 = isEnabled r
    ∧ isEnabled r = r.g_isEnabled := by
  have hAll : (addContextualInfoToEvent e r eventContext).2.AppState
      = (addContextualInfoToEvent e r eventContext).1.g_state := by
    simp [addContextualInfoToEvent, hEnabled]
  refine ⟨?_, ?_, ?_, ?_, ?_, ?_, ?_, ?_, ?_, ?_, ?_, ?_, hAll, ?_, ?_, ?_, ?_, rfl⟩
  · rw [hAll]
  · rw [hAll]
  · rw [hAll]
  · rw [hAll]
  · rw [hAll]
  · rw [hAll]
  · rw [hAll]
  · rw [hAll]
  · rw [hAll]
  · rw [hAll]
  · rw [hAll]
  · rw [hAll]
  · simp [addContextualInfoToEvent, hEnabled]
  · simp [addContextualInfoToEvent, hEnabled]
  · simp [addContextualInfoToEvent, hEnabled]
  · simp [addContextualInfoToEvent, hEnabled, isEnabled]

/-- Witness of C18: the enabled sample recorder and the empty sample context at 200. -/
theorem C18_contribute_context_witness :
    (addContextualInfoToEvent (sampleEnv 200 8) sampleEnabled sampleEventContext).2.AppState
      = (addContextualInfoToEvent (sampleEnv 200 8) sampleEnabled sampleEventContext).1.g_state :=
  (C18_contribute_context (sampleEnv 200 8) sampleEnabled sampleEventContext
    rfl).2.2.2.2.2.2.2.2.2.2.2.2.1

/-- C19, as stated, fails when the clock advances inside `updateAppState`: the function
reads the clock once for the elapsed time and once more for the new time stamp.  On the
sample record (active, last transition at 100, four seconds active since launch) with
clock reads 200 and 201, the active durations grow by 100 and `appStateTransitionTime`
becomes 201, which no single clock value `now` accounts for. -/
theorem C19_updateAppState_counterexample :
    (updateAppState (sampleReads 200 201) sampleEnabled.g_state).activeDurationSinceLaunch
      = 104
    ∧ (updateAppState (sampleReads 200 201) sampleEnabled.g_state).appStateTransitionTime
      = 201
    ∧ ¬ ∃ now : Int,
        (updateAppState (sampleReads 200 201) sampleEnabled.g_state).appStateTransitionTime
          = now
        ∧ (updateAppState (sampleReads 200 201) sampleEnabled.g_state).activeDurationSinceLaunch
          = sampleEnabled.g_state.activeDurationSinceLaunch
            + (now - sampleEnabled.g_state.appStateTransitionTime) := by
  refine ⟨by decide, by decide, ?_⟩
  rintro ⟨now, hTime, hActive⟩
  have h1 : (updateAppState (sampleReads 200 201)
      sampleEnabled.g_state).appStateTransitionTime = 201 := by decide
  have h2 : (updateAppState (sampleReads 200 201)
      sampleEnabled.g_state).activeDurationSinceLaunch = 104 := by decide
  have h3 : sampleEnabled.g_state.activeDurationSinceLaunch = 4 := by decide
  have h4 : sampleEnabled.g_state.appStateTransitionTime = 100 := by decide
  rw [h1] at hTime
  rw [h2, h3, h4] at hActive
  omega

/-- C19, amended (reconcile helper).  For every record, with `e.now` the first clock read
and `e.later` the second, and `elapsed = e.now - appStateTransitionTime`: if
`applicationIsActive`, `updateAppState` adds `elapsed` to `activeDurationSinceLaunch` and
`activeDurationSinceLastCrash` only; else if not `applicationIsInForeground`, it adds
`elapsed` to `backgroundDurationSinceLaunch` and `backgroundDurationSinceLastCrash` only;
else it adds it nowhere.  In all three cases `appStateTransitionTime` becomes `e.later`
and every other field, so every counter and flag, is unchanged. -/
theorem C19_updateAppState [Add D] [Sub D] (e : Env D) (state : RollbarCrash_AppState D) :
    (state.applicationIsActive = true →
      updateAppState e state
        = { state with
            appStateTransitionTime := e.later
            activeDurationSinceLaunch :=
              state.activeDurationSinceLaunch + (e.now - state.appStateTransitionTime)
            activeDurationSinceLastCrash :=
              state.activeDurationSinceLastCrash + (e.now - state.appStateTransitionTime) })
    ∧ (state.applicationIsActive = false → state.applicationIsInForeground = false →
      updateAppState e state
        = { state with
            appStateTransitionTime := e.later
            backgroundDurationSinceLaunch :=
              state.backgroundDurationSinceLaunch + (e.now - state.appStateTransitionTime)
            backgroundDurationSinceLastCrash :=
              state.backgroundDurationSinceLastCrash
                + (e.now - state.appStateTransitionTime) })
    ∧ (state.applicationIsActive = false → state.applicationIsInForeground = true →
      updateAppState e state = { state with appStateTransitionTime := e.later })
    ∧ (updateAppState e state).appStateTransitionTime = e.later
    ∧ (updateAppState e state).launchesSinceLastCrash = state.launchesSinceLastCrash
    ∧ (updateAppState e state).sessionsSinceLastCrash = state.sessionsSinceLastCrash
    ∧ (updateAppState e state).sessionsSinceLaunch = state.sessionsSinceLaunch
    ∧ (updateAppState e state).crashedLastLaunch = state.crashedLastLaunch
    ∧ (updateAppState e state).crashedThisLaunch = state.crashedThisLaunch
    ∧ (updateAppState e state).applicationIsActive = state.applicationIsActive
    ∧ (updateAppState e state).applicationIsInForeground
        = state.applicationIsInForeground := by
  refine ⟨?_, ?_, ?_, ?_, ?_, ?_, ?_, ?_, ?_, ?_, ?_⟩
  · intro hA
    simp [updateAppState, hA]
  · intro hA hF
    simp [updateAppState, hA, hF]
  · intro hA hF
    simp [updateAppState, hA, hF]
  all_goals
    cases hA : state.applicationIsActive <;> cases hF : state.applicationIsInForeground <;>
      simp [updateAppState, hA, hF]

/-- Witness of C19: the sample record (active, last transition at 100) with clock reads
200 and 201. -/
theorem C19_updateAppState_witness :
    updateAppState (sampleReads 200 201) sampleEnabled.g_state
      = { sampleEnabled.g_state with
          appStateTransitionTime := (sampleReads 200 201).later
          activeDurationSinceLaunch :=
            sampleEnabled.g_state.activeDurationSinceLaunch
              + ((sampleReads 200 201).now - sampleEnabled.g_state.appStateTransitionTime)
          activeDurationSinceLastCrash :=
            sampleEnabled.g_state.activeDurationSinceLastCrash
              + ((sampleReads 200 201).now
                - sampleEnabled.g_state.appStateTransitionTime) } :=
  (C19_updateAppState (sampleReads 200 201) sampleEnabled.g_state).1 rfl

end OperationClaims

/-! ## Claims on the numeric policy of the load callbacks -/

section NumericClaims

variable {D : Type}

/-- C20 (numeric policy on load).  For every record and every integer `n`: delivering the
key `activeDurationSinceLastCrash` (or `backgroundDurationSinceLastCrash`) as an integer
element returns OK and sets that duration to `n` converted to a float, which is exactly
what delivering the same key as the float element with that value does.  Delivering
`launchesSinceLastCrash` or `sessionsSinceLastCrash` as an integer element returns OK, sets
that counter to `(int)n`, which is `n` for `n` in the 32-bit `int` range, and changes
nothing else, so no duration.  Delivering a counter key as a float element returns OK and
leaves the record unchanged. -/
theorem C20_numeric_policy [IntCast D] (n : Int) (v : D) (state : RollbarCrash_AppState D) :
    onIntegerElement kKeyActiveDurationSinceLastCrash n state
      = (JSONResult.OK, { state with activeDurationSinceLastCrash := (n : D) })
    ∧ onIntegerElement kKeyActiveDurationSinceLastCrash n state
      = onFloatingPointElement kKeyActiveDurationSinceLastCrash (n : D) state
    ∧ onIntegerElement kKeyBackgroundDurationSinceLastCrash n state
      = (JSONResult.OK, { state with backgroundDurationSinceLastCrash := (n : D) })
    ∧ onIntegerElement kKeyBackgroundDurationSinceLastCrash n state
      = onFloatingPointElement kKeyBackgroundDurationSinceLastCrash (n : D) state
    ∧ onIntegerElement kKeyLaunchesSinceLastCrash n state
      = (JSONResult.OK, { state with launchesSinceLastCrash := CInt.ofInt n })
    ∧ onIntegerElement kKeySessionsSinceLastCrash n state
      = (JSONResult.OK, { state with sessionsSinceLastCrash := CInt.ofInt n })
    ∧ (-2147483648 ≤ n → n ≤ 2147483647 →
        (onIntegerElement kKeyLaunchesSinceLastCrash n state).2.launchesSinceLastCrash.val = n
        ∧ (onIntegerElement kKeySessionsSinceLastCrash n
            state).2.sessionsSinceLastCrash.val = n)
    ∧ onFloatingPointElement kKeyLaunchesSinceLastCrash v state = (JSONResult.OK, state)
    ∧ onFloatingPointElement kKeySessionsSinceLastCrash v state = (JSONResult.OK, state) := by
  have hL : onIntegerElement kKeyLaunchesSinceLastCrash n state
      = (JSONResult.OK, { state with launchesSinceLastCrash := CInt.ofInt n }) := by
    simp [onIntegerElement, onFloatingPointElement, kKeyFormatVersion,
      kKeyLaunchesSinceLastCrash, kKeyActiveDurationSinceLastCrash,
      kKeyBackgroundDurationSinceLastCrash]
  have hS : onIntegerElement kKeySessionsSinceLastCrash n state
      = (JSONResult.OK, { state with sessionsSinceLastCrash := CInt.ofInt n }) := by
    simp [onIntegerElement, onFloatingPointElement, kKeyFormatVersion,
      kKeyLaunchesSinceLastCrash, kKeySessionsSinceLastCrash,
      kKeyActiveDurationSinceLastCrash, kKeyBackgroundDurationSinceLastCrash]
  refine ⟨?_, ?_, ?_, ?_, hL, hS, ?_, ?_, ?_⟩
  · simp [onIntegerElement, onFloatingPointElement, kKeyFormatVersion,
      kKeyLaunchesSinceLastCrash, kKeySessionsSinceLastCrash,
      kKeyActiveDurationSinceLastCrash, kKeyBackgroundDurationSinceLastCrash]
  · simp [onIntegerElement, onFloatingPointElement, kKeyFormatVersion,
      kKeyLaunchesSinceLastCrash, kKeySessionsSinceLastCrash,
      kKeyActiveDurationSinceLastCrash, kKeyBackgroundDurationSinceLastCrash]
  · simp [onIntegerElement, onFloatingPointElement, kKeyFormatVersion,
      kKeyLaunchesSinceLastCrash, kKeySessionsSinceLastCrash,
      kKeyActiveDurationSinceLastCrash, kKeyBackgroundDurationSinceLastCrash]
  · simp [onIntegerElement, onFloatingPointElement, kKeyFormatVersion,
      kKeyLaunchesSinceLastCrash, kKeySessionsSinceLastCrash,
      kKeyActiveDurationSinceLastCrash, kKeyBackgroundDurationSinceLastCrash]
  · intro hlo hhi
    rw [hL, hS]
    exact ⟨CInt.ofInt_val n hlo hhi, CInt.ofInt_val n hlo hhi⟩
  · simp [onFloatingPointElement, kKeyLaunchesSinceLastCrash,
      kKeyActiveDurationSinceLastCrash, kKeyBackgroundDurationSinceLastCrash]
  · simp [onFloatingPointElement, kKeySessionsSinceLastCrash,
      kKeyActiveDurationSinceLastCrash, kKeyBackgroundDurationSinceLastCrash]

/-- Witness of C20: the sample record, the integer 9 under the key
`launchesSinceLastCrash`. -/
theorem C20_numeric_policy_witness :
    (onIntegerElement kKeyLaunchesSinceLastCrash 9
        sampleRecorder.g_state).2.launchesSinceLastCrash.val = 9 :=
  ((C20_numeric_policy 9 (0 : Int) sampleRecorder.g_state).2.2.2.2.2.2.1
    (by decide) (by decide)).1

end NumericClaims

/-! ## Claims on the relation between the two scopes -/

section ScopeLemmas

variable {D : Type}

theorem crashScope_of_reset [Zero D] (e : Env D) (r : Recorder D)
    (hEnabled : r.g_isEnabled = true) (hCrashed : r.g_state.crashedLastLaunch = true) :
    CrashScopeEqualsLaunch (rcstate_reset e r).1.g_state := by
  refine ⟨?_, ?_, ?_⟩
  · simp [rcstate_reset, hEnabled, hCrashed, saveState_g_state]
  · simp [rcstate_reset, hEnabled, hCrashed, saveState_g_state]
  · simp only [rcstate_reset, hEnabled, hCrashed, saveState_g_state, if_true]
    apply Subtype.ext
    decide

theorem crashScope_notify [Zero D] [Add D] [Sub D] (r : Recorder D)
    (ev : Env D × Notification) (h : CrashScopeEqualsLaunch r.g_state) :
    CrashScopeEqualsLaunch (notify r ev).g_state := by
  obtain ⟨e, n⟩ := ev
  obtain ⟨h1, h2, h3⟩ := h
  cases hEn : r.g_isEnabled <;> cases hAct : r.g_state.applicationIsActive <;>
    cases hFg : r.g_state.applicationIsInForeground <;>
    cases n with
    | appActive b =>
      cases b <;>
        simp [CrashScopeEqualsLaunch, notify, rcstate_notifyAppActive, hEn, hAct, hFg, h1,
          h2, h3]
    | appInForeground b =>
      cases b <;>
        simp [CrashScopeEqualsLaunch, notify, rcstate_notifyAppInForeground,
          saveState_g_state, hEn, hAct, hFg, h1, h2, h3]
    | appTerminate =>
      simp [CrashScopeEqualsLaunch, notify, rcstate_notifyAppTerminate, updateAppState,
        saveState_g_state, hEn, hAct, hFg, h1, h2, h3]
    | appCrash =>
      simp [CrashScopeEqualsLaunch, notify, rcstate_notifyAppCrash, updateAppState,
        saveState_g_state, hEn, hAct, hFg, h1, h2, h3]
    | contextualInfo =>
      simp [CrashScopeEqualsLaunch, notify, addContextualInfoToEvent, updateAppState, hEn,
        hAct, hFg, h1, h2, h3]

theorem crashScope_notifyAll [Zero D] [Add D] [Sub D] (evs : List (Env D × Notification))
    (r : Recorder D) (h : CrashScopeEqualsLaunch r.g_state) :
    CrashScopeEqualsLaunch (notifyAll r evs).g_state := by
  induction evs generalizing r with
  | nil => exact h
  | cons ev rest ih =>
    show CrashScopeEqualsLaunch (notifyAll (notify r ev) rest).g_state
    exact ih (notify r ev) (crashScope_notify r ev h)

theorem sameAmount_notify [Zero D] [Add D] [Sub D] (r : Recorder D) (e : Env D)
    (n : Notification) :
    (activePairUnchanged r.g_state (notify r (e, n)).g_state
      ∨ activePairAdded (e.now - r.g_state.appStateTransitionTime) r.g_state
          (notify r (e, n)).g_state)
    ∧ (backgroundPairUnchanged r.g_state (notify r (e, n)).g_state
      ∨ backgroundPairAdded (e.now - r.g_state.appStateTransitionTime) r.g_state
          (notify r (e, n)).g_state)
    ∧ (sessionPairUnchanged r.g_state (notify r (e, n)).g_state
      ∨ sessionPairIncremented r.g_state (notify r (e, n)).g_state) := by
  cases hEn : r.g_isEnabled <;> cases hAct : r.g_state.applicationIsActive <;>
    cases hFg : r.g_state.applicationIsInForeground <;>
    cases n with
    | appActive b =>
      cases b <;>
        simp [notify, rcstate_notifyAppActive, hEn, hAct, hFg, activePairUnchanged,
          activePairAdded, backgroundPairUnchanged, backgroundPairAdded,
          sessionPairUnchanged, sessionPairIncremented]
    | appInForeground b =>
      cases b <;>
        simp [notify, rcstate_notifyAppInForeground, saveState_g_state, hEn, hAct, hFg,
          activePairUnchanged, activePairAdded, backgroundPairUnchanged, backgroundPairAdded,
          sessionPairUnchanged, sessionPairIncremented]
    | appTerminate =>
      simp [notify, rcstate_notifyAppTerminate, updateAppState, saveState_g_state, hEn, hAct,
        hFg, activePairUnchanged, activePairAdded, backgroundPairUnchanged,
        backgroundPairAdded, sessionPairUnchanged, sessionPairIncremented]
    | appCrash =>
      simp [notify, rcstate_notifyAppCrash, updateAppState, saveState_g_state, hEn, hAct,
        hFg, activePairUnchanged, activePairAdded, backgroundPairUnchanged,
        backgroundPairAdded, sessionPairUnchanged, sessionPairIncremented]
    | contextualInfo =>
      simp [notify, addContextualInfoToEvent, updateAppState, hEn, hAct, hFg,
        activePairUnchanged, activePairAdded, backgroundPairUnchanged, backgroundPairAdded,
        sessionPairUnchanged, sessionPairIncremented]

/-- Two reconciliations in a row against one: the pair of durations counted for the record
misses the time between the two clock reads of the first. -/
theorem updateAppState_twice [AddCommGroup D] (e1 e2 : Env D)
    (state : RollbarCrash_AppState D) :
    updateAppState e2 (updateAppState e1 state)
      = withoutGap (e1.later - e1.now) (updateAppState e2 state) := by
  have hSum : ∀ x : D, x + (e1.now - state.appStateTransitionTime) + (e2.now - e1.later)
      = x + (e2.now - state.appStateTransitionTime) - (e1.later - e1.now) := by
    intro x
    abel
  cases hA : state.applicationIsActive <;> cases hF : state.applicationIsInForeground <;>
    simp [updateAppState, withoutGap, hA, hF, hSum]

/-- From a record that is active or in the background, two reconciliations in a row give
the since-launch total of one only if the two clock reads of the first agree. -/
theorem gap_of_total_twice [AddCommGroup D] (e1 e2 : Env D)
    (state : RollbarCrash_AppState D)
    (hFlags : state.applicationIsActive = true ∨ state.applicationIsInForeground = false)
    (hTotal : sinceLaunchTotal (updateAppState e2 (updateAppState e1 state))
      = sinceLaunchTotal (updateAppState e2 state)) :
    e1.later = e1.now := by
  have hFlags1 : (updateAppState e1 state).applicationIsActive = true
      ∨ (updateAppState e1 state).applicationIsInForeground = false := by
    rw [(updateAppState_flags e1 state).1, (updateAppState_flags e1 state).2]
    exact hFlags
  rw [sinceLaunchTotal_updateAppState e2 _ hFlags1,
    sinceLaunchTotal_updateAppState e1 _ hFlags, updateAppState_time,
    sinceLaunchTotal_updateAppState e2 _ hFlags] at hTotal
  have hGap : e1.later - e1.now
      = sinceLaunchTotal state + (e2.now - state.appStateTransitionTime)
        - (sinceLaunchTotal state + (e1.now - state.appStateTransitionTime)
          + (e2.now - e1.later)) := by
    abel
  rw [hTotal, sub_self] at hGap
  exact sub_eq_zero.mp hGap

theorem counted_of_not_idle (state : RollbarCrash_AppState D)
    (hIdle : ¬ (state.applicationIsActive = false ∧ state.applicationIsInForeground = true)) :
    state.applicationIsActive = true ∨ state.applicationIsInForeground = false := by
  cases hA : state.applicationIsActive
  · cases hF : state.applicationIsInForeground
    · exact Or.inr rfl
    · exact absurd ⟨hA, hF⟩ hIdle
  · exact Or.inl rfl

theorem updateAppState_twice_iff [AddCommGroup D] (e1 e2 : Env D)
    (state : RollbarCrash_AppState D) :
    updateAppState e2 (updateAppState e1 state) = updateAppState e2 state
      ↔ (state.applicationIsActive = false ∧ state.applicationIsInForeground = true)
        ∨ e1.later = e1.now := by
  constructor
  · intro hEq
    by_cases hIdle : state.applicationIsActive = false
        ∧ state.applicationIsInForeground = true
    · exact Or.inl hIdle
    · exact Or.inr (gap_of_total_twice e1 e2 state (counted_of_not_idle state hIdle)
        (congrArg sinceLaunchTotal hEq))
  · rintro (⟨hA, hF⟩ | hNow)
    · simp [updateAppState, hA, hF]
    · rw [updateAppState_twice, hNow, sub_self]
      cases hA : state.applicationIsActive <;> cases hF : state.applicationIsInForeground <;>
        simp [updateAppState, withoutGap, hA, hF]

end ScopeLemmas

section ScopeClaims

variable {D : Type}

/-- C21, as stated, fails for a session counter at `INT_MAX`: on the enabled sample recorder
with `sessionsSinceLastCrash = 2147483647` and `sessionsSinceLaunch = 3`,
`notify_foreground(true)` puts both counters through `++`; `sessionsSinceLaunch` becomes 4
and the difference of the two, 2147483644 before, is not preserved, nor could any value of
an `int` in place of the new `sessionsSinceLastCrash` preserve it. -/
theorem C21_launch_after_crash_counterexample :
    sampleSaturated.g_state.sessionsSinceLastCrash.val
        - sampleSaturated.g_state.sessionsSinceLaunch.val = 2147483644
    ∧ (notify sampleSaturated
        (sampleEnv 200 8, Notification.appInForeground true)).g_state.sessionsSinceLaunch.val
      = 4
    ∧ (notify sampleSaturated
          (sampleEnv 200 8, Notification.appInForeground true)).g_state.sessionsSinceLastCrash.val
        - (notify sampleSaturated
          (sampleEnv 200 8, Notification.appInForeground true)).g_state.sessionsSinceLaunch.val
      ≠ sampleSaturated.g_state.sessionsSinceLastCrash.val
        - sampleSaturated.g_state.sessionsSinceLaunch.val
    ∧ ∀ x : CInt,
        x.val - (notify sampleSaturated
          (sampleEnv 200 8, Notification.appInForeground true)).g_state.sessionsSinceLaunch.val
        ≠ sampleSaturated.g_state.sessionsSinceLastCrash.val
          - sampleSaturated.g_state.sessionsSinceLaunch.val := by
  refine ⟨by decide, by decide, by decide, ?_⟩
  intro x
  have h1 : (notify sampleSaturated
      (sampleEnv 200 8, Notification.appInForeground true)).g_state.sessionsSinceLaunch.val
      = 4 := by decide
  have h2 : sampleSaturated.g_state.sessionsSinceLastCrash.val
      - sampleSaturated.g_state.sessionsSinceLaunch.val = 2147483644 := by decide
  have h3 := x.property.2
  rw [h1, h2]
  omega

/-- C21, amended (launch after a crash).  If `reset()` runs with the monitor enabled and
`crashedLastLaunch = true`, directly or through `set_enabled(true)`, then after every
following sequence of `notify_active`, `notify_foreground`, `notify_terminate`,
`notify_crash` and `contribute_context` calls, at any clock values,
`activeDurationSinceLastCrash = activeDurationSinceLaunch`,
`backgroundDurationSinceLastCrash = backgroundDurationSinceLaunch` and
`sessionsSinceLastCrash = sessionsSinceLaunch`.  More generally, for every record each such
call leaves a since-launch duration and its since-last-crash counterpart both unchanged or
adds the same amount, the first clock read less `appStateTransitionTime`, to both, and
leaves the two session counters both unchanged or puts both through one `++`; so, with
durations taken as exact numbers, the differences of the durations are preserved, and so is
the difference of the session counters whenever both are below `INT_MAX`. -/
theorem C21_launch_after_crash [AddCommGroup D] (e0 : Env D) (r : Recorder D)
    (evs : List (Env D × Notification)) (q : Recorder D) (e : Env D) (n : Notification) :
    (r.g_isEnabled = true → r.g_state.crashedLastLaunch = true →
      (notifyAll (rcstate_reset e0 r).1 evs).g_state.activeDurationSinceLastCrash
        = (notifyAll (rcstate_reset e0 r).1 evs).g_state.activeDurationSinceLaunch
      ∧ (notifyAll (rcstate_reset e0 r).1 evs).g_state.backgroundDurationSinceLastCrash
        = (notifyAll (rcstate_reset e0 r).1 evs).g_state.backgroundDurationSinceLaunch
      ∧ (notifyAll (rcstate_reset e0 r).1 evs).g_state.sessionsSinceLastCrash
        = (notifyAll (rcstate_reset e0 r).1 evs).g_state.sessionsSinceLaunch)
    ∧ (r.g_isEnabled = false → r.g_state.crashedLastLaunch = true →
      (notifyAll (setEnabled e0 true r) evs).g_state.activeDurationSinceLastCrash
        = (notifyAll (setEnabled e0 true r) evs).g_state.activeDurationSinceLaunch
      ∧ (notifyAll (setEnabled e0 true r) evs).g_state.backgroundDurationSinceLastCrash
        = (notifyAll (setEnabled e0 true r) evs).g_state.backgroundDurationSinceLaunch
      ∧ (notifyAll (setEnabled e0 true r) evs).g_state.sessionsSinceLastCrash
        = (notifyAll (setEnabled e0 true r) evs).g_state.sessionsSinceLaunch)
    ∧ (activePairUnchanged q.g_state (notify q (e, n)).g_state
      ∨ activePairAdded (e.now - q.g_state.appStateTransitionTime) q.g_state
          (notify q (e, n)).g_state)
    ∧ (backgroundPairUnchanged q.g_state (notify q (e, n)).g_state
      ∨ backgroundPairAdded (e.now - q.g_state.appStateTransitionTime) q.g_state
          (notify q (e, n)).g_state)
    ∧ (sessionPairUnchanged q.g_state (notify q (e, n)).g_state
      ∨ sessionPairIncremented q.g_state (notify q (e, n)).g_state)
    ∧ (notify q (e, n)).g_state.activeDurationSinceLastCrash
        - (notify q (e, n)).g_state.activeDurationSinceLaunch
      = q.g_state.activeDurationSinceLastCrash - q.g_state.activeDurationSinceLaunch
    ∧ (notify q (e, n)).g_state.backgroundDurationSinceLastCrash
        - (notify q (e, n)).g_state.backgroundDurationSinceLaunch
      = q.g_state.backgroundDurationSinceLastCrash - q.g_state.backgroundDurationSinceLaunch
    ∧ (q.g_state.sessionsSinceLastCrash.val < 2147483647 →
        q.g_state.sessionsSinceLaunch.val < 2147483647 →
        (notify q (e, n)).g_state.sessionsSinceLastCrash.val
          - (notify q (e, n)).g_state.sessionsSinceLaunch.val
        = q.g_state.sessionsSinceLastCrash.val - q.g_state.sessionsSinceLaunch.val) := by
  obtain ⟨hActive, hBackground, hSessions⟩ := sameAmount_notify q e n
  refine ⟨?_, ?_, hActive, hBackground, hSessions, ?_, ?_, ?_⟩
  · intro hEnabled hCrashed
    exact crashScope_notifyAll evs _ (crashScope_of_reset e0 r hEnabled hCrashed)
  · intro hDisabled hCrashed
    have hSet : setEnabled e0 true r = (rcstate_reset e0 { r with g_isEnabled := true }).1 := by
      simp [setEnabled, hDisabled]
    rw [hSet]
    exact crashScope_notifyAll evs _
      (crashScope_of_reset e0 { r with g_isEnabled := true } rfl hCrashed)
  · rcases hActive with ⟨h1, h2⟩ | ⟨h1, h2⟩
    · rw [h1, h2]
    · rw [h1, h2]
      abel
  · rcases hBackground with ⟨h1, h2⟩ | ⟨h1, h2⟩
    · rw [h1, h2]
    · rw [h1, h2]
      abel
  · intro hMaxCrash hMaxLaunch
    rcases hSessions with ⟨h1, h2⟩ | ⟨h1, h2⟩
    · rw [h1, h2]
    · rw [h1, h2, CInt.incr_val _ hMaxCrash, CInt.incr_val _ hMaxLaunch]
      omega

/-- Witness of C21: the enabled sample recorder (previous launch crashed), `reset()` at 1,
then the sample notifications. -/
theorem C21_launch_after_crash_witness :
    (notifyAll (rcstate_reset (sampleEnv 1 8) sampleEnabled).1
        sampleNotifications).g_state.activeDurationSinceLastCrash
      = (notifyAll (rcstate_reset (sampleEnv 1 8) sampleEnabled).1
        sampleNotifications).g_state.activeDurationSinceLaunch
    ∧ (notifyAll (rcstate_reset (sampleEnv 1 8) sampleEnabled).1
        sampleNotifications).g_state.backgroundDurationSinceLastCrash
      = (notifyAll (rcstate_reset (sampleEnv 1 8) sampleEnabled).1
        sampleNotifications).g_state.backgroundDurationSinceLaunch
    ∧ (notifyAll (rcstate_reset (sampleEnv 1 8) sampleEnabled).1
        sampleNotifications).g_state.sessionsSinceLastCrash
      = (notifyAll (rcstate_reset (sampleEnv 1 8) sampleEnabled).1
        sampleNotifications).g_state.sessionsSinceLaunch :=
  (C21_launch_after_crash (sampleEnv 1 8) sampleEnabled sampleNotifications sampleEnabled
    (sampleEnv 200 8) Notification.appTerminate).1 rfl rfl

/-- C22, as stated, fails when the clock advances inside the report's reconciliation.  On
the enabled sample recorder (active, last transition at 100) a `contribute_context` whose
clock reads are 150 and 151 followed by `notify_crash` at 200 leaves
`activeDurationSinceLaunch = 103` and `activeDurationSinceLastCrash = 139`, where
`notify_crash` at 200 alone leaves 104 and 140; the records and the files differ, and so do
the two `updateAppState` calls against the one. -/
theorem C22_reconcile_additive_counterexample :
    updateAppState (sampleEnv 200 8)
        (updateAppState (sampleReads 150 151) sampleEnabled.g_state)
      ≠ updateAppState (sampleEnv 200 8) sampleEnabled.g_state
    ∧ (rcstate_notifyAppCrash (sampleEnv 200 8)
        (addContextualInfoToEvent (sampleReads 150 151) sampleEnabled
          sampleEventContext).1).g_state.activeDurationSinceLaunch = 103
    ∧ (rcstate_notifyAppCrash (sampleEnv 200 8) sampleEnabled).g_state.activeDurationSinceLaunch
      = 104
    ∧ (rcstate_notifyAppCrash (sampleEnv 200 8)
        (addContextualInfoToEvent (sampleReads 150 151) sampleEnabled
          sampleEventContext).1).g_state.activeDurationSinceLastCrash = 139
    ∧ (rcstate_notifyAppCrash (sampleEnv 200 8)
        sampleEnabled).g_state.activeDurationSinceLastCrash = 140
    ∧ (rcstate_notifyAppCrash (sampleEnv 200 8)
        (addContextualInfoToEvent (sampleReads 150 151) sampleEnabled
          sampleEventContext).1).file
      ≠ (rcstate_notifyAppCrash (sampleEnv 200 8) sampleEnabled).file
    ∧ (rcstate_notifyAppTerminate (sampleEnv 200 8)
        (addContextualInfoToEvent (sampleReads 150 151) sampleEnabled
          sampleEventContext).1).g_state
      ≠ (rcstate_notifyAppTerminate (sampleEnv 200 8) sampleEnabled).g_state := by
  decide

/-- C22, amended (reconciliation is additive over time, up to the time between the two clock
reads of a reconciliation).  Durations are exact numbers.  For every record,
`updateAppState` with clock reads `e1.now` and `e1.later` followed by `updateAppState` at
`e2` equals `updateAppState` at `e2` with the pair of durations counted for the record
reduced by `e1.later - e1.now`; the two are equal exactly when `e1.later = e1.now` or the
record is in the foreground but not active.  Hence for every recorder and report context,
running `contribute_context` at `e1` and then `notify_crash` (or `notify_terminate`) at
`e2` ends in the same recorder as `notify_crash` (or `notify_terminate`) at `e2` alone, the
same record, the same file, the same count of saves, exactly when the monitor is disabled
or the record is in the foreground but not active or `e1.later = e1.now`; with the monitor
enabled the record it leaves is that of the single call with the counted pair reduced by
`e1.later - e1.now`. -/
theorem C22_reconcile_additive [AddCommGroup D] (e1 e2 : Env D)
    (state : RollbarCrash_AppState D) (r : Recorder D)
    (eventContext : RollbarCrash_MonitorContext D) :
    updateAppState e2 (updateAppState e1 state)
      = withoutGap (e1.later - e1.now) (updateAppState e2 state)
    ∧ (updateAppState e2 (updateAppState e1 state) = updateAppState e2 state
      ↔ (state.applicationIsActive = false ∧ state.applicationIsInForeground = true)
        ∨ e1.later = e1.now)
    ∧ (rcstate_notifyAppCrash e2 (addContextualInfoToEvent e1 r eventContext).1
        = rcstate_notifyAppCrash e2 r
      ↔ r.g_isEnabled = false
        ∨ (r.g_state.applicationIsActive = false ∧ r.g_state.applicationIsInForeground = true)
        ∨ e1.later = e1.now)
    ∧ (rcstate_notifyAppTerminate e2 (addContextualInfoToEvent e1 r eventContext).1
        = rcstate_notifyAppTerminate e2 r
      ↔ r.g_isEnabled = false
        ∨ (r.g_state.applicationIsActive = false ∧ r.g_state.applicationIsInForeground = true)
        ∨ e1.later = e1.now)
    ∧ (r.g_isEnabled = true →
      (rcstate_notifyAppCrash e2 (addContextualInfoToEvent e1 r eventContext).1).g_state
        = withoutGap (e1.later - e1.now) (rcstate_notifyAppCrash e2 r).g_state)
    ∧ (r.g_isEnabled = true →
      (rcstate_notifyAppTerminate e2 (addContextualInfoToEvent e1 r eventContext).1).g_state
        = withoutGap (e1.later - e1.now) (rcstate_notifyAppTerminate e2 r).g_state) := by
  refine ⟨updateAppState_twice e1 e2 state, updateAppState_twice_iff e1 e2 state,
    ?_, ?_, ?_, ?_⟩
  · cases hEn : r.g_isEnabled
    · simp [rcstate_notifyAppCrash, addContextualInfoToEvent, hEn]
    · constructor
      · intro hEq
        by_cases hIdle : r.g_state.applicationIsActive = false
            ∧ r.g_state.applicationIsInForeground = true
        · exact Or.inr (Or.inl hIdle)
        · have hTotal := congrArg (fun q => sinceLaunchTotal q.g_state) hEq
          simp only [rcstate_notifyAppCrash, addContextualInfoToEvent, hEn, if_true,
            saveState_g_state] at hTotal
          exact Or.inr (Or.inr (gap_of_total_twice e1 e2 r.g_state
            (counted_of_not_idle r.g_state hIdle) hTotal))
      · rintro (hOff | hRest)
        · cases hOff
        · simp only [rcstate_notifyAppCrash, addContextualInfoToEvent, hEn, if_true,
            (updateAppState_twice_iff e1 e2 r.g_state).mpr hRest]
  · cases hEn : r.g_isEnabled
    · simp [rcstate_notifyAppTerminate, addContextualInfoToEvent, hEn]
    · constructor
      · intro hEq
        by_cases hIdle : r.g_state.applicationIsActive = false
            ∧ r.g_state.applicationIsInForeground = true
        · exact Or.inr (Or.inl hIdle)
        · have hTotal := congrArg (fun q => sinceLaunchTotal q.g_state) hEq
          simp only [rcstate_notifyAppTerminate, addContextualInfoToEvent, hEn, if_true,
            saveState_g_state] at hTotal
          exact Or.inr (Or.inr (gap_of_total_twice e1 e2 r.g_state
            (counted_of_not_idle r.g_state hIdle) hTotal))
      · rintro (hOff | hRest)
        · cases hOff
        · simp only [rcstate_notifyAppTerminate, addContextualInfoToEvent, hEn, if_true,
            (updateAppState_twice_iff e1 e2 r.g_state).mpr hRest]
  · intro hEn
    simp only [rcstate_notifyAppCrash, addContextualInfoToEvent, hEn, if_true,
      saveState_g_state, updateAppState_twice e1 e2 r.g_state]
    cases hA : r.g_state.applicationIsActive <;>
      cases hF : r.g_state.applicationIsInForeground <;>
      simp [updateAppState, withoutGap, hA, hF]
  · intro hEn
    simp only [rcstate_notifyAppTerminate, addContextualInfoToEvent, hEn, if_true,
      saveState_g_state, updateAppState_twice e1 e2 r.g_state]

/-- Witness of C22: the enabled sample recorder, a report whose two clock reads are both
150 and the crash at 200. -/
theorem C22_reconcile_additive_witness :
    rcstate_notifyAppCrash (sampleEnv 200 8)
        (addContextualInfoToEvent (sampleEnv 150 8) sampleEnabled sampleEventContext).1
      = rcstate_notifyAppCrash (sampleEnv 200 8) sampleEnabled :=
  (C22_reconcile_additive (sampleEnv 150 8) (sampleEnv 200 8) sampleEnabled.g_state
    sampleEnabled sampleEventContext).2.2.1.mpr (Or.inr (Or.inr rfl))

end ScopeClaims

end Rollbar
